import Mathlib

/-
Verification of the temporal reconciliation and indication-segment-to-code
resolution engine of the limitation_analysis repository.

The Python sources are shallowly embedded below:
  - a small regular-expression interpreter with Python re semantics
    (leftmost match, ordered alternation, greedy and lazy repetition,
    MULTILINE caret, word boundary) used to embed the literal patterns
    of the source files;
  - the text segmenter of extract_limitations.py / build_sku_indication_db.py;
  - the three-layer indication-code extraction;
  - MD5 (RFC 1321) and the content-hash deduplicating upserts;
  - the preparation-to-SKU temporal fan-out;
  - the segment-to-code matching cascade of extract_limitations.py and the
    name-map building layers of build_sku_indication_db.py, including a
    faithful translation of difflib.SequenceMatcher.ratio.
-/

set_option autoImplicit false

namespace Py

/-- Python regex class \s restricted to the ASCII whitespace characters
(space, tab, newline, carriage return, vertical tab, form feed). -/
def isPySpace (c : Char) : Bool :=
  c = ' ' || c = '\t' || c = '\n' || c = '\r' || c = '\x0b' || c = '\x0c'

/-- Python regex class \w (ASCII letters, digits, underscore). -/
def isWordChar (c : Char) : Bool :=
  c.isAlphanum || c = '_'

/-- Syntax of the regular expressions used by the source patterns.
Alternation is ordered (left preferred), starG is greedy, starL is lazy. -/
inductive RE where
  | eps
  | cls (p : Char → Bool)
  | seq (r1 r2 : RE)
  | alt (r1 r2 : RE)
  | starG (r : RE)
  | starL (r : RE)
  | group (n : Nat) (r : RE)
  | bol
  | wordB

/-- Captured group spans: (group index, start offset, end offset). -/
abbrev Groups := List (Nat × Nat × Nat)

/-- Backtracking matcher with Python preference order, in continuation style.
Fuel bounds the recursion depth; it is chosen large enough at every call
site that it is never exhausted on the inputs considered. Repetition
only iterates after consuming input, as the Python engine does. -/
def reMatch (s : List Char) : Nat → RE → Nat → Groups →
    (Nat → Groups → Option (Nat × Groups)) → Option (Nat × Groups)
  | 0, _, _, _, _ => none
  | fuel + 1, r, pos, g, k =>
    match r with
    | .eps => k pos g
    | .cls p =>
        match s[pos]? with
        | some c => if p c then k (pos + 1) g else none
        | none => none
    | .seq r1 r2 =>
        reMatch s fuel r1 pos g (fun p g2 => reMatch s fuel r2 p g2 k)
    | .alt r1 r2 =>
        (reMatch s fuel r1 pos g k).orElse (fun _ => reMatch s fuel r2 pos g k)
    | .starG r1 =>
        (reMatch s fuel r1 pos g (fun p g2 =>
          if pos < p then reMatch s fuel (.starG r1) p g2 k else none)).orElse
          (fun _ => k pos g)
    | .starL r1 =>
        (k pos g).orElse (fun _ =>
          reMatch s fuel r1 pos g (fun p g2 =>
            if pos < p then reMatch s fuel (.starL r1) p g2 k else none))
    | .group n r1 =>
        reMatch s fuel r1 pos g (fun p g2 => k p ((n, pos, p) :: g2))
    | .bol =>
        if pos = 0 || s[pos - 1]? = some '\n' then k pos g else none
    | .wordB =>
        let w1 : Bool :=
          if pos = 0 then false else
            match s[pos - 1]? with
            | some c => isWordChar c
            | none => false
        let w2 : Bool :=
          match s[pos]? with
          | some c => isWordChar c
          | none => false
        if w1 ≠ w2 then k pos g else none

/-- Fuel large enough for the fixed source patterns on a text of
the given length. -/
def reFuel (s : List Char) : Nat :=
  1000 + 8 * s.length

/-- Attempt a match anchored at offset pos; returns (end offset, groups). -/
def reMatchAt (r : RE) (s : List Char) (pos : Nat) : Option (Nat × Groups) :=
  reMatch s (reFuel s) r pos [] (fun p g => some (p, g))

/-- Result of a successful search: start, end, captured groups. -/
structure RMatch where
  mstart : Nat
  mend : Nat
  groups : Groups
deriving DecidableEq, Repr

/-- Search from a given offset onward (Python re.search semantics: the
leftmost offset at which the pattern matches wins). -/
def reSearchFromAux (r : RE) (s : List Char) : Nat → Nat → Option RMatch
  | 0, _ => none
  | fuel + 1, pos =>
    match reMatchAt r s pos with
    | some (e, g) => some ⟨pos, e, g⟩
    | none =>
        if pos < s.length then reSearchFromAux r s fuel (pos + 1) else none

def reSearchFrom (r : RE) (s : List Char) (pos : Nat) : Option RMatch :=
  reSearchFromAux r s (s.length + 1 - pos) pos

def reSearch (r : RE) (s : List Char) : Option RMatch :=
  reSearchFrom r s 0

/-- Python re.finditer: non-overlapping matches, scanning left to right,
advancing past each match (one further on an empty match). -/
def reFindIterAux (r : RE) (s : List Char) : Nat → Nat → List RMatch
  | 0, _ => []
  | fuel + 1, pos =>
    match reSearchFrom r s pos with
    | none => []
    | some m =>
        let next := if m.mend = m.mstart then m.mend + 1 else m.mend
        m :: reFindIterAux r s fuel next

def reFindIter (r : RE) (s : List Char) : List RMatch :=
  reFindIterAux r s (s.length + 2) 0

/-- Substring s[a:b] as a character list. -/
def sub (s : List Char) (a b : Nat) : List Char :=
  (s.drop a).take (b - a)

/-- Value of capture group n of a match (last recorded span wins,
as in Python; the source patterns capture each group once). -/
def groupStr (s : List Char) (m : RMatch) (n : Nat) : Option (List Char) :=
  match m.groups.find? (fun t => t.1 = n) with
  | some (_, a, b) => some (sub s a b)
  | none => none

/-- Regex matching a single literal character. -/
def chr (c : Char) : RE := .cls (fun x => x = c)

/-- Case-insensitive single character. -/
def chri (c : Char) : RE := .cls (fun x => x.toLower = c.toLower)

/-- Literal string. -/
def strR (cs : List Char) : RE :=
  cs.foldr (fun c acc => .seq (chr c) acc) .eps

/-- Case-insensitive literal string. -/
def strRI (cs : List Char) : RE :=
  cs.foldr (fun c acc => .seq (chri c) acc) .eps

/-- Python . without DOTALL: any character except newline. -/
def dotR : RE := .cls (fun c => c ≠ '\n')

def digitR : RE := .cls Char.isDigit

def wsR : RE := .cls isPySpace

/-- Exactly n copies of r. -/
def repExact : Nat → RE → RE
  | 0, _ => .eps
  | n + 1, r => .seq r (repExact n r)

/-- Greedily up to n copies of r. -/
def repUpTo : Nat → RE → RE
  | 0, _ => .eps
  | n + 1, r => .alt (.seq r (repUpTo n r)) .eps

/-- Greedy bounded repetition with {lo,hi} semantics. -/
def repR (lo hi : Nat) (r : RE) : RE :=
  .seq (repExact lo r) (repUpTo (hi - lo) r)

/-- Greedy option r? . -/
def optR (r : RE) : RE := .alt r .eps

/-- Lazy plus r+? . -/
def plusL (r : RE) : RE := .seq r (.starL r)

/-- Greedy plus r+ . -/
def plusG (r : RE) : RE := .seq r (.starG r)

end Py

namespace Src

open Py

/-- Pattern RE_NUMERIC from both source files: (\d{5}\.\d{2})\.?\b . -/
def RE_NUMERIC : RE :=
  .seq (.group 1 (.seq (repR 5 5 digitR) (.seq (chr '.') (repR 2 2 digitR))))
    (.seq (optR (chr '.')) .wordB)

/-- Pattern RE_BOLD: <b>(.+?)</b> . -/
def RE_BOLD : RE :=
  .seq (strR "<b>".data) (.seq (.group 1 (plusL dotR)) (strR "</b>".data))

/-- One <br\s*/?> tag followed by [\s\n]* as in RE_HEADER_BOLD. -/
def brBlock : RE :=
  .seq (strR "<br".data)
    (.seq (.starG wsR) (.seq (optR (chr '/')) (.seq (chr '>') (.starG wsR))))

/-- Pattern RE_HEADER_BOLD (MULTILINE):
(?:^|<br\s*/?>[\s\n]*(?:<br\s*/?>[\s\n]*)*)(<b>.+?</b>) . -/
def RE_HEADER_BOLD : RE :=
  .seq (.alt .bol (.seq brBlock (.starG brBlock)))
    (.group 1 (.seq (strR "<b>".data) (.seq (plusL dotR) (strR "</b>".data))))

/-- Capture group (\d{5}\.\d{2}) shared by all TEXT_PATTERNS. -/
def codeGroup : RE :=
  .group 1 (.seq (repR 5 5 digitR) (.seq (chr '.') (repR 2 2 digitR)))

/-- Suffix [^:]{0,n}:\s*(\d{5}\.\d{2}) shared by the TEXT_PATTERNS. -/
def colonCode (n : Nat) : RE :=
  .seq (repR 0 n (.cls (fun c => c ≠ ':')))
    (.seq (chr ':') (.seq (.starG wsR) codeGroup))

/-- The seven case-insensitive TEXT_PATTERNS of the source files, in order:
German (3), French (2), Italian (2). -/
def TEXT_PATTERNS : List RE :=
  [ .seq (strRI "Indikationscode".data) (colonCode 60),
    .seq (strRI "Code".data)
      (.seq (repR 0 40 (.cls (fun c => c ≠ ':')))
        (.seq (strRI "Krankenversicherer".data) (colonCode 40))),
    .seq (strRI "Code".data)
      (.seq (repR 0 60 (.cls (fun c => c ≠ ':')))
        (.seq (strRI "bermitteln".data) (colonCode 20))),
    .seq (strRI "code".data)
      (.seq (plusG wsR)
        (.seq (optR (.seq (strRI "d".data)
            (.seq dotR (.seq (strRI "indication".data) (plusG wsR)))))
          (.seq (strRI "suivant".data) (colonCode 60)))),
    .seq (strRI "code".data)
      (.seq (plusG wsR) (.seq (strRI "correspondant".data) (colonCode 60))),
    .seq (strRI "codice".data) (colonCode 60),
    .seq (strRI "All".data) (.seq dotR (.seq (strRI "assicuratore".data) (colonCode 60))) ]

/-- Removal of trailing characters satisfying p (Python rstrip). -/
def dropTrailing (p : Char → Bool) (cs : List Char) : List Char :=
  (cs.reverse.dropWhile p).reverse

/-- Python str.strip() on the whitespace occurring in the corpus. -/
def pyStrip (cs : List Char) : List Char :=
  dropTrailing isPySpace (cs.dropWhile isPySpace)

/-- Python truthiness of an optional string: None and the empty string
are falsy. -/
def truthy : Option String → Bool
  | some s => s ≠ ""
  | none => false

/-- Python a or b on optional strings: the first truthy value. -/
def orPy (a b : Option String) : Option String :=
  if truthy a then a else b

/-- Model of Python html.unescape restricted to the entity forms occurring
in the corpus: the five XML named entities, nbsp, and decimal or
hexadecimal numeric references, all with closing semicolon. -/
def htmlUnescapeAux : Nat → List Char → List Char
  | 0, cs => cs
  | _ + 1, [] => []
  | fuel + 1, c :: cs =>
    if c = '&' then
      if "amp;".data.isPrefixOf cs then '&' :: htmlUnescapeAux fuel (cs.drop 4)
      else if "lt;".data.isPrefixOf cs then '<' :: htmlUnescapeAux fuel (cs.drop 3)
      else if "gt;".data.isPrefixOf cs then '>' :: htmlUnescapeAux fuel (cs.drop 3)
      else if "quot;".data.isPrefixOf cs then '"' :: htmlUnescapeAux fuel (cs.drop 5)
      else if "apos;".data.isPrefixOf cs then '\'' :: htmlUnescapeAux fuel (cs.drop 5)
      else if "nbsp;".data.isPrefixOf cs then ' ' :: htmlUnescapeAux fuel (cs.drop 5)
      else if "#".data.isPrefixOf cs then
        let body := (cs.drop 1).takeWhile (fun d => d ≠ ';')
        let rest := (cs.drop 1).drop (body.length + 1)
        let n :=
          if "x".data.isPrefixOf body ∨ "X".data.isPrefixOf body then
            (body.drop 1).foldl (fun a d => 16 * a + d.toNat % 16 +
              (if d.isDigit then d.toNat - 48 - d.toNat % 16 + d.toNat % 16 - (d.toNat - 48) else 0)) 0
          else body.foldl (fun a d => 10 * a + (d.toNat - 48)) 0
        if ((cs.drop 1).takeWhile (fun d => d ≠ ';')).length + 1 ≤ cs.length then
          Char.ofNat n :: htmlUnescapeAux fuel rest
        else c :: htmlUnescapeAux fuel cs
      else c :: htmlUnescapeAux fuel cs
    else c :: htmlUnescapeAux fuel cs

def html_unescape (s : String) : String :=
  (htmlUnescapeAux s.data.length s.data).asString

/-- Bold names treated as structural markers (STRUCTURAL_BOLD_NAMES). -/
def STRUCTURAL_BOLD_NAMES : List String :=
  ["UND", "ODER", "AND", "OR", "ET", "OU",
   "und", "oder", "and", "or", "et", "ou"]

/-- Bold-name prefixes treated as structural (STRUCTURAL_PREFIXES). -/
def STRUCTURAL_PREFIXES : List String :=
  ["Vor Therapiebeginn",
   "Therapiefortführung", "Therapiefortsetzung",
   "Therapieabbruch",
   "nach AJCC",
   "Fr. ", "CHF ",
   "Maximal ",
   "Dosierungsschema",
   "Für alle vergütungspflichtigen",
   "Rückerstattungen",
   "Erwachsene",
   "Kriterien für die Vergütung"]

/-- Python str.isdigit restricted to ASCII digits. -/
def pyIsDigit (cs : List Char) : Bool :=
  !cs.isEmpty && cs.all Char.isDigit

/-- Python str.islower restricted to ASCII letters: at least one cased
character and no uppercase character. -/
def pyIsLower (cs : List Char) : Bool :=
  cs.any (fun c => c.isLower || c.isUpper) && cs.all (fun c => !c.isUpper)

/-- Function _is_structural_name of both source files: a bold name is a
structural marker, not an indication name. A missing name is structural. -/
def is_structural_name (name : Option String) : Bool :=
  match name with
  | none => true
  | some s =>
    if s = "" then true else
    let stripped := dropTrailing (fun c => c = ':') (pyStrip s.data)
    if (STRUCTURAL_BOLD_NAMES.map String.data).contains stripped then true
    else if STRUCTURAL_PREFIXES.any (fun p => p.data.isPrefixOf stripped) then true
    else if pyIsDigit (stripped.filter (fun c => c ≠ '.' && c ≠ ',')) then true
    else if stripped.length ≤ 3 && pyIsLower stripped then true
    else false

/-- Function split_text_by_indication: split a limitation text at
paragraph-level bold headers; returns (name, segment text) pairs. -/
def split_text_by_indication (text : Option String) : List (String × String) :=
  match text with
  | none => []
  | some t =>
    if t = "" then [] else
    let s := t.data
    let headers := reFindIter RE_HEADER_BOLD s
    headers.enum.map (fun (i, m) =>
      let g1 := (groupStr s m 1).getD []
      let name := ((reSearch RE_BOLD g1).bind (fun mb => groupStr g1 mb 1)).getD []
      let segStart := m.mend
      let segEnd := match headers[i+1]? with
        | some m2 => m2.mstart
        | none => s.length
      (name.asString, (pyStrip (sub s segStart segEnd)).asString))

/-- One aligned segment row produced by split_limitation_texts. -/
structure SegRow where
  order : Nat
  name_de : Option String
  name_fr : Option String
  name_it : Option String
  text_de : Option String
  text_fr : Option String
  text_it : Option String
deriving DecidableEq, Repr

/-- Function split_limitation_texts: split all three language texts and
align them by position. -/
def split_limitation_texts (desc_de desc_fr desc_it : Option String) :
    List SegRow :=
  let segs_de := split_text_by_indication desc_de
  let segs_fr := split_text_by_indication desc_fr
  let segs_it := split_text_by_indication desc_it
  let max_len := max (max segs_de.length segs_fr.length) segs_it.length
  (List.range max_len).map (fun i =>
    { order := i,
      name_de := (segs_de[i]?).map Prod.fst,
      name_fr := (segs_fr[i]?).map Prod.fst,
      name_it := (segs_it[i]?).map Prod.fst,
      text_de := (segs_de[i]?).map Prod.snd,
      text_fr := (segs_fr[i]?).map Prod.snd,
      text_it := (segs_it[i]?).map Prod.snd })

/-- Model of one parsed <Limitation> XML element: the fields read by
process_limitation, with the Code attributes of the two structured
indication-list containers. -/
structure LimElem where
  limitationCode : Option String
  limitationType : Option String
  limitationNiveau : Option String
  descDe : Option String
  descFr : Option String
  descIt : Option String
  indicationsCodes : List String
  pmIndications : List String
deriving DecidableEq, Repr

/-- Function extract_codes_structured: codes from the machine-readable
IndicationsCodes element, else from the PmIndications element. -/
def extract_codes_structured (lim : LimElem) : List String :=
  let codes := (lim.indicationsCodes.map (fun c => (pyStrip c.data).asString)).filter
    (fun c => c ≠ "")
  if codes.isEmpty then
    (lim.pmIndications.map (fun c => (pyStrip c.data).asString)).filter
      (fun c => c ≠ "")
  else codes

/-- Insertion-ordered deduplication, modelling accumulation into a set
(the downstream per-code upserts are insensitive to order). -/
def dedup (l : List String) : List String :=
  l.foldl (fun acc c => if acc.contains c then acc else acc ++ [c]) []

/-- Function extract_codes_from_text: union over the three HTML-unescaped
language bodies of all TEXT_PATTERNS matches; each captured code has any
trailing dot removed and must still match RE_NUMERIC at its start. -/
def extract_codes_from_text (desc_de desc_fr desc_it : Option String) :
    List String :=
  dedup <| [desc_de, desc_fr, desc_it].foldl (fun acc t =>
    match t with
    | none => acc
    | some txt =>
      if txt = "" then acc else
      let decoded := (html_unescape txt).data
      TEXT_PATTERNS.foldl (fun acc2 pat =>
        (reFindIter pat decoded).foldl (fun acc3 m =>
          let raw := dropTrailing (fun c => c = '.') ((groupStr decoded m 1).getD [])
          if (reMatchAt RE_NUMERIC raw 0).isSome then acc3 ++ [raw.asString]
          else acc3) acc2) acc) []

end Src

namespace MD5

/-- Modulus 2^32 for 32-bit arithmetic. -/
def M32 : Nat := 4294967296

def add32 (a b : Nat) : Nat := (a + b) % M32

/-- Bitwise complement on 32 bits (argument below 2^32). -/
def not32 (a : Nat) : Nat := a ^^^ (M32 - 1)

/-- Left rotation of a 32-bit word. -/
def rotl32 (x s : Nat) : Nat :=
  ((x <<< s) % M32) ||| (x >>> (32 - s))

/-- Round constants K of RFC 1321. -/
def K : List Nat :=
  [0xd76aa478, 0xe8c7b756, 0x242070db, 0xc1bdceee,
   0xf57c0faf, 0x4787c62a, 0xa8304613, 0xfd469501,
   0x698098d8, 0x8b44f7af, 0xffff5bb1, 0x895cd7be,
   0x6b901122, 0xfd987193, 0xa679438e, 0x49b40821,
   0xf61e2562, 0xc040b340, 0x265e5a51, 0xe9b6c7aa,
   0xd62f105d, 0x02441453, 0xd8a1e681, 0xe7d3fbc8,
   0x21e1cde6, 0xc33707d6, 0xf4d50d87, 0x455a14ed,
   0xa9e3e905, 0xfcefa3f8, 0x676f02d9, 0x8d2a4c8a,
   0xfffa3942, 0x8771f681, 0x6d9d6122, 0xfde5380c,
   0xa4beea44, 0x4bdecfa9, 0xf6bb4b60, 0xbebfbc70,
   0x289b7ec6, 0xeaa127fa, 0xd4ef3085, 0x04881d05,
   0xd9d4d039, 0xe6db99e5, 0x1fa27cf8, 0xc4ac5665,
   0xf4292244, 0x432aff97, 0xab9423a7, 0xfc93a039,
   0x655b59c3, 0x8f0ccc92, 0xffeff47d, 0x85845dd1,
   0x6fa87e4f, 0xfe2ce6e0, 0xa3014314, 0x4e0811a1,
   0xf7537e82, 0xbd3af235, 0x2ad7d2bb, 0xeb86d391]

/-- Per-round left-rotation amounts of RFC 1321. -/
def S : List Nat :=
  [7, 12, 17, 22, 7, 12, 17, 22, 7, 12, 17, 22, 7, 12, 17, 22,
   5, 9, 14, 20, 5, 9, 14, 20, 5, 9, 14, 20, 5, 9, 14, 20,
   4, 11, 16, 23, 4, 11, 16, 23, 4, 11, 16, 23, 4, 11, 16, 23,
   6, 10, 15, 21, 6, 10, 15, 21, 6, 10, 15, 21, 6, 10, 15, 21]

def funF (b c d : Nat) : Nat := (b &&& c) ||| (not32 b &&& d)

def funG (b c d : Nat) : Nat := (d &&& b) ||| (not32 d &&& c)

def funH (b c d : Nat) : Nat := b ^^^ c ^^^ d

def funI (b c d : Nat) : Nat := c ^^^ (b ||| not32 d)

/-- UTF-8 encoding of one character as a byte list. -/
def utf8Bytes (c : Char) : List Nat :=
  let n := c.toNat
  if n < 0x80 then [n]
  else if n < 0x800 then
    [0xC0 ||| (n >>> 6), 0x80 ||| (n &&& 0x3F)]
  else if n < 0x10000 then
    [0xE0 ||| (n >>> 12), 0x80 ||| ((n >>> 6) &&& 0x3F), 0x80 ||| (n &&& 0x3F)]
  else
    [0xF0 ||| (n >>> 18), 0x80 ||| ((n >>> 12) &&& 0x3F),
     0x80 ||| ((n >>> 6) &&& 0x3F), 0x80 ||| (n &&& 0x3F)]

def strBytes (s : String) : List Nat :=
  (s.data.map utf8Bytes).flatten

/-- Little-endian byte decomposition of x on n bytes. -/
def toLE (n x : Nat) : List Nat :=
  (List.range n).map (fun i => (x >>> (8 * i)) % 256)

/-- RFC 1321 padding: 0x80, zeros to 56 mod 64, then the bit length
on 8 little-endian bytes. -/
def padMsg (msg : List Nat) : List Nat :=
  let len := msg.length
  let zeros := (120 - ((len + 1) % 64)) % 64
  msg ++ [0x80] ++ List.replicate zeros 0 ++ toLE 8 ((8 * len) % (2 ^ 64))

/-- The sixteen little-endian 32-bit words of one 64-byte chunk. -/
def chunkWords (chunk : List Nat) : List Nat :=
  (List.range 16).map (fun j =>
    chunk.getD (4 * j) 0 + 256 * chunk.getD (4 * j + 1) 0 +
    65536 * chunk.getD (4 * j + 2) 0 + 16777216 * chunk.getD (4 * j + 3) 0)

/-- Split a byte list into 64-byte chunks. -/
def chunks64 : Nat → List Nat → List (List Nat)
  | 0, _ => []
  | _ + 1, [] => []
  | fuel + 1, l => l.take 64 :: chunks64 fuel (l.drop 64)

/-- One of the 64 MD5 rounds. -/
def md5Step (M : List Nat) (st : Nat × Nat × Nat × Nat) (i : Nat) :
    Nat × Nat × Nat × Nat :=
  let (a, b, c, d) := st
  let fg : Nat × Nat :=
    if i < 16 then (funF b c d, i)
    else if i < 32 then (funG b c d, (5 * i + 1) % 16)
    else if i < 48 then (funH b c d, (3 * i + 5) % 16)
    else (funI b c d, (7 * i) % 16)
  let tmp := add32 (add32 (add32 a fg.1) (K.getD i 0)) (M.getD fg.2 0)
  (d, add32 b (rotl32 tmp (S.getD i 0)), b, c)

/-- Process one 64-byte chunk, updating the running state. -/
def md5Chunk (st : Nat × Nat × Nat × Nat) (chunk : List Nat) :
    Nat × Nat × Nat × Nat :=
  let M := chunkWords chunk
  let r := (List.range 64).foldl (md5Step M) st
  (add32 st.1 r.1, add32 st.2.1 r.2.1, add32 st.2.2.1 r.2.2.1,
   add32 st.2.2.2 r.2.2.2)

def hexDigit (n : Nat) : Char :=
  "0123456789abcdef".data.getD n '0'

/-- Lowercase hex rendering of a byte. -/
def byteHex (b : Nat) : List Char :=
  [hexDigit (b / 16), hexDigit (b % 16)]

/-- MD5 hex digest of a byte list (hashlib.md5(...).hexdigest()). -/
def md5Hex (msg : List Nat) : String :=
  let padded := padMsg msg
  let st := (chunks64 (padded.length + 1) padded).foldl md5Chunk
    (0x67452301, 0xefcdab89, 0x98badcfe, 0x10325476)
  (((toLE 4 st.1 ++ toLE 4 st.2.1 ++ toLE 4 st.2.2.1 ++ toLE 4 st.2.2.2).map
    byteHex).flatten).asString

end MD5

namespace Src

/-- Combined string hashed by compute_hash: the three language bodies,
missing ones as the empty string, joined by the pipe character. -/
def combined_descs (desc_de desc_fr desc_it : Option String) : String :=
  (desc_de.getD "") ++ "|" ++ (desc_fr.getD "") ++ "|" ++ (desc_it.getD "")

/-- Function compute_hash of both source files: the MD5 hex digest of the
UTF-8 encoding of the combined string. -/
def compute_hash (desc_de desc_fr desc_it : Option String) : String :=
  MD5.md5Hex (MD5.strBytes (combined_descs desc_de desc_fr desc_it))

end Src

namespace BDB

/-- Row of the limitation_text table of build_sku_indication_db.py
(the cashback and resolved-date columns, filled by later phases, are
not touched by the upsert and are omitted). -/
structure LimitationTextRow where
  text_id : Nat
  content_hash : String
  limitation_code : Option String
  limitation_type : Option String
  limitation_niveau : Option String
  description_de : Option String
  description_fr : Option String
  description_it : Option String
  first_seen_extract : Nat
  last_seen_extract : Nat
deriving DecidableEq, Repr

/-- Function upsert_limitation_text: look up the content hash; on a hit
only advance last_seen_extract, otherwise insert a new row seen first and
last at the current extract. Returns the new table and the text_id. -/
def upsert_limitation_text (store : List LimitationTextRow) (extract_id : Nat)
    (content_hash : String)
    (lim_code lim_type lim_niveau desc_de desc_fr desc_it : Option String) :
    List LimitationTextRow × Nat :=
  match store.find? (fun r => r.content_hash = content_hash) with
  | some r =>
      (store.map (fun q =>
        if q.text_id = r.text_id then { q with last_seen_extract := extract_id }
        else q), r.text_id)
  | none =>
      let id := store.length + 1
      (store ++ [{ text_id := id, content_hash := content_hash,
                   limitation_code := lim_code, limitation_type := lim_type,
                   limitation_niveau := lim_niveau,
                   description_de := desc_de, description_fr := desc_fr,
                   description_it := desc_it,
                   first_seen_extract := extract_id,
                   last_seen_extract := extract_id }], id)

/-- Row of the sku table of build_sku_indication_db.py. The columns
derived by the external pack-description parser (form type, unit counts,
volumes, substance quantities) are set once at insert from the payload
and never touched by the update branch; they are represented here by the
description they are parsed from. -/
structure SkuRow where
  gtin : String
  swissmedic_no8 : Option String
  swissmedic_no5 : String
  bag_dossier_no : Option String
  preparation_id : Nat
  product_name : Option String
  atc_code : Option String
  org_gen_code : Option String
  description_de : Option String
  public_price : Option ℚ
  exfactory_price : Option ℚ
  first_seen_extract : Nat
  last_seen_extract : Nat
deriving DecidableEq, Repr

/-- SQL COALESCE(a, b). -/
def coalesce {α : Type} (a b : Option α) : Option α :=
  match a with
  | some v => some v
  | none => b

/-- Function upsert_sku: look up the GTIN; on a hit update only
last_seen_extract and the two prices (COALESCE keeps the stored price if
the new one is null); otherwise insert a new row first and last seen at
the current extract. -/
def upsert_sku (store : List SkuRow) (extract_id : Nat) (gtin : String)
    (swissmedic_no8 : Option String) (swissmedic_no5 : String)
    (bag_dossier_no : Option String) (preparation_id : Nat)
    (product_name atc_code org_gen_code description_de : Option String)
    (public_price exfactory_price : Option ℚ) : List SkuRow :=
  if (store.find? (fun r => r.gtin = gtin)).isSome then
    store.map (fun r =>
      if r.gtin = gtin then
        { r with last_seen_extract := extract_id,
                 public_price := coalesce public_price r.public_price,
                 exfactory_price := coalesce exfactory_price r.exfactory_price }
      else r)
  else
    store ++ [{ gtin := gtin, swissmedic_no8 := swissmedic_no8,
                swissmedic_no5 := swissmedic_no5,
                bag_dossier_no := bag_dossier_no,
                preparation_id := preparation_id,
                product_name := product_name, atc_code := atc_code,
                org_gen_code := org_gen_code,
                description_de := description_de,
                public_price := public_price,
                exfactory_price := exfactory_price,
                first_seen_extract := extract_id,
                last_seen_extract := extract_id }]

/-- Payload of one pack observation in one snapshot, for chains of
upsert_sku calls. -/
structure SkuObs where
  extract_id : Nat
  gtin : String
  swissmedic_no8 : Option String
  swissmedic_no5 : String
  bag_dossier_no : Option String
  preparation_id : Nat
  product_name : Option String
  atc_code : Option String
  org_gen_code : Option String
  description_de : Option String
  public_price : Option ℚ
  exfactory_price : Option ℚ
deriving DecidableEq, Repr

def applySkuObs (store : List SkuRow) (o : SkuObs) : List SkuRow :=
  upsert_sku store o.extract_id o.gtin o.swissmedic_no8 o.swissmedic_no5
    o.bag_dossier_no o.preparation_id o.product_name o.atc_code
    o.org_gen_code o.description_de o.public_price o.exfactory_price

/-- Chronological ingestion: all sku observations applied in order to an
initially empty table. -/
def runSkuUpserts (obs : List SkuObs) : List SkuRow :=
  obs.foldl applySkuObs []

/-- Payload of one limitation-text observation, for chains of
upsert_limitation_text calls. -/
structure TextObs where
  extract_id : Nat
  content_hash : String
  limitation_code : Option String
  limitation_type : Option String
  limitation_niveau : Option String
  description_de : Option String
  description_fr : Option String
  description_it : Option String
deriving DecidableEq, Repr

def applyTextObs (store : List LimitationTextRow) (o : TextObs) :
    List LimitationTextRow :=
  (upsert_limitation_text store o.extract_id o.content_hash o.limitation_code
    o.limitation_type o.limitation_niveau o.description_de o.description_fr
    o.description_it).1

def runTextUpserts (obs : List TextObs) : List LimitationTextRow :=
  obs.foldl applyTextObs []

end BDB

namespace BDB

/-- Dossier part of an indication code as computed inside fanout_to_sku:
code.split(".")[0] if "." in code else code. -/
def code_dossier (code : String) : String :=
  if code.data.contains '.' then (code.data.takeWhile (fun c => c ≠ '.')).asString
  else code

/-- The fields of one sku row read by fanout_to_sku. -/
structure SkuT where
  gtin : String
  preparation_id : Nat
  bag_dossier_no : Option String
  first_ext : Nat
  last_ext : Nat
deriving DecidableEq, Repr

/-- One row of the temporary _prep_code_link table. -/
structure PrepLink where
  preparation_id : Nat
  text_id : Nat
  indication_code : String
  code_source : String
  limitation_level : String
  is_fallback : Bool
  first_seen_extract : Nat
  last_seen_extract : Nat
deriving DecidableEq, Repr

/-- One row of the sku_indication table, kept at extract-sequence level;
valid_from and valid_to in the source are the release dates these two
extract ids map to. -/
structure SkuIndication where
  gtin : String
  indication_code : String
  text_id : Nat
  code_source : String
  limitation_level : String
  is_fallback : Bool
  eff_first : Nat
  eff_last : Nat
deriving DecidableEq, Repr

/-- Decision of the inner loop of fanout_to_sku for one link and one
candidate sku of the same preparation: skip without overlap of the
extract intervals, skip a PACK-level link whose code dossier differs
from the sku dossier, otherwise create the link with the interval
intersection. -/
def fanout_pair (link : PrepLink) (sku : SkuT) : Option SkuIndication :=
  if sku.last_ext < link.first_seen_extract ∨
      link.last_seen_extract < sku.first_ext then none
  else if link.limitation_level = "PACK" ∧
      sku.bag_dossier_no ≠ some (code_dossier link.indication_code) then none
  else some
    { gtin := sku.gtin, indication_code := link.indication_code,
      text_id := link.text_id, code_source := link.code_source,
      limitation_level := link.limitation_level,
      is_fallback := link.is_fallback,
      eff_first := max sku.first_ext link.first_seen_extract,
      eff_last := min sku.last_ext link.last_seen_extract }

/-- Fan-out of one preparation-level link over a sku table: the candidate
set is the skus of the owning preparation, and each candidate passes
through fanout_pair. -/
def fanout_link (skus : List SkuT) (link : PrepLink) : List SkuIndication :=
  (skus.filter (fun s => s.preparation_id = link.preparation_id)).filterMap
    (fanout_pair link)

end BDB

namespace EL

open Py Src

/-- Row of the pack table of extract_limitations.py. The remaining
descriptive columns of the source (flags, wholesale, status fields) are
set in both the insert and the update branch exactly like description_de
and are omitted. -/
structure PackRow where
  pack_id_db : Nat
  preparation_id : Nat
  gtin : String
  swissmedic_no8 : Option String
  bag_dossier_no : Option String
  description_de : Option String
  description_fr : Option String
  description_it : Option String
  public_price : Option ℚ
  exfactory_price : Option ℚ
  first_seen_extract : Nat
  last_seen_extract : Nat
deriving DecidableEq, Repr

/-- Function upsert_pack: a falsy GTIN is ignored; on a GTIN hit, every
descriptive field including bag_dossier_no is overwritten with the new
payload and last_seen_extract advances, while preparation_id, gtin and
first_seen_extract are left untouched; otherwise a new row is inserted.
Returns the table and the pack_id_db (none when skipped). -/
def upsert_pack (store : List PackRow) (extract_id : Nat)
    (preparation_id : Nat) (gtin : Option String)
    (swissmedic_no8 bag_dossier_no : Option String)
    (description_de description_fr description_it : Option String)
    (public_price exfactory_price : Option ℚ) :
    List PackRow × Option Nat :=
  if ¬ truthy gtin then (store, none)
  else
    let g := gtin.getD ""
    match store.find? (fun r => r.gtin = g) with
    | some r =>
        (store.map (fun q =>
          if q.pack_id_db = r.pack_id_db then
            { q with last_seen_extract := extract_id,
                     bag_dossier_no := bag_dossier_no,
                     swissmedic_no8 := swissmedic_no8,
                     description_de := description_de,
                     description_fr := description_fr,
                     description_it := description_it,
                     public_price := public_price,
                     exfactory_price := exfactory_price }
          else q), some r.pack_id_db)
    | none =>
        let id := store.length + 1
        (store ++ [{ pack_id_db := id, preparation_id := preparation_id,
                     gtin := g, swissmedic_no8 := swissmedic_no8,
                     bag_dossier_no := bag_dossier_no,
                     description_de := description_de,
                     description_fr := description_fr,
                     description_it := description_it,
                     public_price := public_price,
                     exfactory_price := exfactory_price,
                     first_seen_extract := extract_id,
                     last_seen_extract := extract_id }], some id)

end EL

namespace Src

open Py

/-- Stable insertion of x before the first element not strictly smaller,
used to model the stable Python sorted(...) and SQLite ORDER BY. -/
def insertStable {α : Type} (lt : α → α → Bool) (x : α) : List α → List α
  | [] => [x]
  | y :: ys => if lt y x then y :: insertStable lt x ys else x :: y :: ys

/-- Stable sort by a strict comparison (ties keep input order). -/
def sortStable {α : Type} (lt : α → α → Bool) (l : List α) : List α :=
  l.foldr (insertStable lt) []

/-- Strict codepoint-lexicographic comparison of character lists; agrees
with Python string comparison and with the SQLite BINARY collation on
UTF-8 text. -/
def lexLt : List Char → List Char → Bool
  | [], [] => false
  | [], _ :: _ => true
  | _ :: _, [] => false
  | a :: as, b :: bs => if a = b then lexLt as bs else decide (a < b)

/-- Replacement of every non-overlapping occurrence of a pattern, left to
right (Python str.replace). -/
def replaceAll (pat rep : List Char) : Nat → List Char → List Char
  | 0, cs => cs
  | _ + 1, [] => []
  | fuel + 1, c :: cs =>
    if pat.isPrefixOf (c :: cs) then
      rep ++ replaceAll pat rep fuel ((c :: cs).drop pat.length)
    else c :: replaceAll pat rep fuel cs

/-- Collapse of every maximal whitespace run to one space
(re.sub of \s+ with a single space). -/
def collapseWsAux : Bool → List Char → List Char
  | _, [] => []
  | inRun, c :: cs =>
    if isPySpace c then
      if inRun then collapseWsAux true cs else ' ' :: collapseWsAux true cs
    else c :: collapseWsAux false cs

def collapseWs (cs : List Char) : List Char :=
  collapseWsAux false cs

/-- Python str.lower restricted to ASCII letters (the non-ASCII cased
characters of the corpus are not exercised by any theorem below). -/
def pyLower (s : String) : String :=
  (s.data.map Char.toLower).asString

/-- Dictionary BRAND_CANONICAL, identical in the two source files,
in its literal insertion order. -/
def BRAND_CANONICAL : List (String × String) :=
  [("LENALIDOMID SPIRIG HC", "LENALIDOMID"), ("LENALIDOMID SANDOZ", "LENALIDOMID"),
   ("LENALIDOMID-TEVA", "LENALIDOMID"), ("LENALIDOMID ZENTIVA", "LENALIDOMID"),
   ("LENALIDOMID VIATRIS", "LENALIDOMID"), ("LENALIDOMID DEVATIS", "LENALIDOMID"),
   ("LENALIDOMID ACCORD", "LENALIDOMID"), ("LENALIDOMID BMS", "LENALIDOMID"),
   ("LENALIDOMID Spirig", "LENALIDOMID"), ("LENALIDOMID Viatris", "LENALIDOMID"),
   ("LÉNALIDOMIDE DEVATIS", "LENALIDOMID"), ("Lenalidomid Spirig", "LENALIDOMID"),
   ("REVLIMID", "LENALIDOMID"),
   ("POMALIDOMID SPIRIG HC", "POMALIDOMID"), ("POMALIDOMID SANDOZ", "POMALIDOMID"),
   ("POMALIDOMID-TEVA", "POMALIDOMID"), ("POMALIDOMID ZENTIVA", "POMALIDOMID"),
   ("POMALIDOMID ACCORD", "POMALIDOMID"), ("IMNOVID", "POMALIDOMID"),
   ("AZACITIDIN SPIRIG HC", "AZACITIDIN"), ("AZACITIDIN ACCORD", "AZACITIDIN"),
   ("AZACITIDIN MYLAN", "AZACITIDIN"), ("AZACITIDIN SANDOZ", "AZACITIDIN"),
   ("AZACITIDIN STADA", "AZACITIDIN"), ("AZACITIDIN VIATRIS", "AZACITIDIN"),
   ("AZACITIDIN IDEOGEN", "AZACITIDIN"), ("VIDAZA", "AZACITIDIN"),
   ("DECITABIN ACCORD", "DECITABIN"), ("DECITABIN IDEOGEN", "DECITABIN"),
   ("DECITABIN SANDOZ", "DECITABIN"),
   ("OGIVRI", "TRASTUZUMAB"), ("TRAZIMERA", "TRASTUZUMAB"), ("KANJINTI", "TRASTUZUMAB"),
   ("HERZUMA", "TRASTUZUMAB"), ("HERCEPTIN", "TRASTUZUMAB"), ("ZERCEPAC", "TRASTUZUMAB"),
   ("OYAVAS", "BEVACIZUMAB"), ("ZIRABEV", "BEVACIZUMAB"), ("AVASTIN", "BEVACIZUMAB"),
   ("TRUXIMA", "RITUXIMAB"), ("RIXATHON", "RITUXIMAB"),
   ("DARZALEX SC", "DARZALEX"), ("Darzalex", "DARZALEX"),
   ("Kyprolis", "KYPROLIS"),
   ("Daratumumab", "DARZALEX"), ("Nivolumab", "OPDIVO"),
   ("Pembrolizumab", "KEYTRUDA"), ("Trastuzumab", "HERCEPTIN"),
   ("Bevacizumab", "AVASTIN"), ("Rituximab", "MABTHERA")]

/-- Value _BRAND_SORTED: the brand table stably sorted by decreasing
key length so that longer names substitute first. -/
def BRAND_SORTED : List (String × String) :=
  sortStable (fun a b => b.1.length < a.1.length) BRAND_CANONICAL

/-- Function _normalize_brands of both source files: sequential
str.replace over the sorted brand table. -/
def normalize_brands (name : String) : String :=
  (BRAND_SORTED.foldl
    (fun cs bc => replaceAll bc.1.data bc.2.data cs.length cs) name.data).asString

end Src

namespace EL

open Py Src

/-- Function _normalize_indication_name of extract_limitations.py:
strip, drop trailing colons, strip again, collapse whitespace runs.
This variant does not lowercase; its callers do. -/
def normalize_indication_name (name : Option String) : String :=
  match name with
  | none => ""
  | some s =>
    if s = "" then "" else
    (collapseWs (pyStrip (dropTrailing (fun c => c = ':') (pyStrip s.data)))).asString

/-- Pattern of _normalize_kombination: ^Kombination\s+(\S+),?\s*(.*) . -/
def RE_KOMBINATION : RE :=
  .seq (strR "Kombination".data)
    (.seq (plusG wsR)
      (.seq (.group 1 (plusG (.cls (fun c => !isPySpace c))))
        (.seq (optR (chr ','))
          (.seq (.starG wsR) (.group 2 (.starG dotR))))))

/-- Function _normalize_kombination: rewrite a leading
Kombination BRAND, rest into BRAND in Kombination mit rest. -/
def normalize_kombination (name : String) : String :=
  match reMatchAt RE_KOMBINATION name.data 0 with
  | some (_, groups) =>
    let m : RMatch := ⟨0, 0, groups⟩
    let brand := dropTrailing (fun c => c = ',') ((groupStr name.data m 1).getD [])
    let rest := (groupStr name.data m 2).getD []
    (brand.asString) ++ " in Kombination mit " ++ rest.asString
  | none => name

end EL

namespace Difflib

/-- Ascending positions of a character in the second sequence (the b2j
index of difflib.SequenceMatcher). -/
def positions (b : List Char) (c : Char) : List Nat :=
  (b.enum.filter (fun p => p.2 = c)).map (fun p => p.1)

/-- Automatic junk heuristic of SequenceMatcher: an element of b is
popular when b has at least 200 elements and the element occurs in more
than one percent of them; popular elements get no b2j entries. -/
def popularB (b : List Char) (c : Char) : Bool :=
  decide (200 ≤ b.length) && decide (b.length / 100 + 1 < b.count c)

def b2j (b : List Char) (c : Char) : List Nat :=
  if popularB b c then [] else positions b c

def lookupJ2 (m : List (Nat × Nat)) (j : Nat) : Nat :=
  ((m.find? (fun p => p.1 = j)).map (fun p => p.2)).getD 0

/-- Core dynamic-programming sweep of find_longest_match: for each i the
row j2len maps j to the length of the longest match ending at (i, j);
the first strictly longest block wins, as in the source. -/
def flmLoop (a b : List Char) (alo ahi blo bhi : Nat) : Nat × Nat × Nat :=
  (((List.range' alo (ahi - alo)).foldl
    (fun (st : List (Nat × Nat) × (Nat × Nat × Nat)) i =>
      let js := (b2j b (a.getD i ' ')).filter (fun j => blo ≤ j && j < bhi)
      let inner := js.foldl
        (fun (st2 : List (Nat × Nat) × (Nat × Nat × Nat)) j =>
          let k := (if j = 0 then 0 else lookupJ2 st.1 (j - 1)) + 1
          let best := st2.2
          ((j, k) :: st2.1,
           if best.2.2 < k then (i + 1 - k, j + 1 - k, k) else best))
        ([], st.2)
      (inner.1, inner.2))
    ([], (alo, blo, 0))).2)

/-- Extension of the best block to the left while adjacent elements are
equal (the junk variants of these loops never fire: the b junk set is
empty because no isjunk predicate is supplied). -/
def extendLeft (a b : List Char) (alo blo : Nat) :
    Nat → Nat × Nat × Nat → Nat × Nat × Nat
  | 0, best => best
  | fuel + 1, (bi, bj, sz) =>
    if alo < bi && blo < bj &&
        decide (a[bi - 1]? = b[bj - 1]? ∧ (a[bi - 1]?).isSome) then
      extendLeft a b alo blo fuel (bi - 1, bj - 1, sz + 1)
    else (bi, bj, sz)

/-- Extension of the best block to the right while adjacent elements are
equal. -/
def extendRight (a b : List Char) (ahi bhi : Nat) :
    Nat → Nat × Nat × Nat → Nat × Nat × Nat
  | 0, best => best
  | fuel + 1, (bi, bj, sz) =>
    if bi + sz < ahi && bj + sz < bhi &&
        decide (a[bi + sz]? = b[bj + sz]? ∧ (a[bi + sz]?).isSome) then
      extendRight a b ahi bhi fuel (bi, bj, sz + 1)
    else (bi, bj, sz)

/-- Method find_longest_match of SequenceMatcher on a[alo:ahi] and
b[blo:bhi]. -/
def find_longest_match (a b : List Char) (alo ahi blo bhi : Nat) :
    Nat × Nat × Nat :=
  let best := flmLoop a b alo ahi blo bhi
  let best2 := extendLeft a b alo blo best.1 best
  extendRight a b ahi bhi (ahi + 1) best2

/-- Total number of matched elements over the recursive decomposition of
get_matching_blocks; merging adjacent blocks in the source does not
change this sum. -/
def matchedTotal (a b : List Char) : Nat → Nat → Nat → Nat → Nat → Nat
  | 0, _, _, _, _ => 0
  | fuel + 1, alo, ahi, blo, bhi =>
    let r := find_longest_match a b alo ahi blo bhi
    if r.2.2 = 0 then 0
    else
      matchedTotal a b fuel alo r.1 blo r.2.1 + r.2.2 +
        matchedTotal a b fuel (r.1 + r.2.2) ahi (r.2.1 + r.2.2) bhi

/-- Method ratio of SequenceMatcher: twice the matched total over the
summed lengths, kept as an exact fraction (numerator, denominator); the
source computes the same quantity in double precision, and no comparison
below sits on a rounding boundary. Both sequences empty give 1, as in
_calculate_ratio. -/
def sm_similarity (a b : List Char) : Nat × Nat :=
  if a.length + b.length = 0 then (1, 1)
  else (2 * matchedTotal a b (a.length + b.length + 1) 0 a.length 0 b.length,
    a.length + b.length)

/-- Strict comparison of two nonnegative fractions by cross
multiplication. -/
def frLt (x y : Nat × Nat) : Bool :=
  decide (x.1 * y.2 < y.1 * x.2)

/-- Comparison of a fraction with the rational p/q. -/
def frGe (x : Nat × Nat) (p q : Nat) : Bool :=
  decide (q * x.1 ≥ p * x.2)

/-- Test best - second ≥ 1/20, the 0.05 confidence gap, by cross
multiplication. -/
def frGapGe20 (best second : Nat × Nat) : Bool :=
  decide (20 * best.1 * second.2 ≥ 20 * second.1 * best.2 + best.2 * second.2)

end Difflib

namespace Src

/-- Python str.split on a single separator character. -/
def splitOnChar (c : Char) (cs : List Char) : List (List Char) :=
  cs.foldr (fun x acc =>
    match acc with
    | [] => [[x]]
    | h :: t => if x = c then [] :: h :: t else (x :: h) :: t) [[]]

end Src

namespace EL

open Py Src Difflib

/-- Row of limitation_indication_segment as read by the cascade: the
query of phase 4d also computes one bag_dossier_no per preparation by a
pack subquery, carried here on the segment. -/
structure Segment where
  segment_id : Nat
  limitation_id : Nat
  indication_name_de : Option String
  bag_dossier_no : Option String
  segment_order : Nat
  matched_code_value : Option String
  matched_code_source : Option String
deriving DecidableEq, Repr

/-- Row of indication_name_code_map in table order. -/
structure MapEntry where
  indication_name_de : String
  code_value : String
  bag_dossier_no : Option String
deriving DecidableEq, Repr

/-- Row of indication_code in table order. -/
structure CodeRow where
  limitation_id : Nat
  code_value : String
deriving DecidableEq, Repr

/-- Reference tables read (never written) by the cascade. -/
structure RefData where
  name_code_map : List MapEntry
  codes : List CodeRow
deriving DecidableEq, Repr

def hasPipe (s : String) : Bool := s.data.contains '|'

/-- Map entries whose name holds no pipe (NOT LIKE pattern of the
source query). -/
def mapping (refs : RefData) : List MapEntry :=
  refs.name_code_map.filter (fun e => !hasPipe e.indication_name_de)

/-- Map entries whose name holds a pipe. -/
def mapping_piped (refs : RefData) : List MapEntry :=
  refs.name_code_map.filter (fun e => hasPipe e.indication_name_de)

/-- Indication part of a code: c.split(".")[1] if "." in c else c. -/
def ind_part (c : String) : String :=
  if c.data.contains '.' then ((splitOnChar '.' c.data).getD 1 []).asString else c

/-- Normalized lowercase key of a segment name. -/
def segKeyNorm (name : String) : String :=
  pyLower (normalize_indication_name (some name))

def entryNormKey (e : MapEntry) : String :=
  pyLower (normalize_indication_name (some e.indication_name_de))

def entryBrandKey (e : MapEntry) : String :=
  pyLower (normalize_brands (normalize_indication_name (some e.indication_name_de)))

def entryKombiKey (e : MapEntry) : String :=
  pyLower (normalize_brands (normalize_kombination
    (normalize_indication_name (some e.indication_name_de))))

/-- Lookup map_by_norm_name: candidate (code, dossier) pairs of the
given normalized name, in mapping order. -/
def map_by_norm_name (refs : RefData) (key : String) :
    List (String × Option String) :=
  (mapping refs).filterMap (fun e =>
    if entryNormKey e = key then some (e.code_value, e.bag_dossier_no) else none)

/-- Lookup map_by_brand_norm: indexed under the brand-normalized key and
additionally under the Kombination-normalized key when different. -/
def map_by_brand_norm (refs : RefData) (key : String) :
    List (String × Option String) :=
  (mapping refs).filterMap (fun e =>
    if entryBrandKey e = key then some (e.code_value, e.bag_dossier_no)
    else if entryKombiKey e ≠ entryBrandKey e ∧ entryKombiKey e = key then
      some (e.code_value, e.bag_dossier_no)
    else none)

/-- Keys contributed by one piped entry to map_by_pipe_part, in append
order: each pipe part under its normalized key and, when different, its
brand-normalized key. -/
def pipePartKeys (e : MapEntry) : List String :=
  (splitOnChar '|' e.indication_name_de.data).flatMap (fun part =>
    let pn := pyLower (normalize_indication_name (some part.asString))
    if pn = "" then []
    else
      let pb := pyLower (normalize_brands
        (normalize_indication_name (some part.asString)))
      if pb ≠ pn then [pn, pb] else [pn])

def map_by_pipe_part (refs : RefData) (key : String) :
    List (String × Option String) :=
  (mapping_piped refs).flatMap (fun e =>
    (pipePartKeys e).filterMap (fun k2 =>
      if k2 = key then some (e.code_value, e.bag_dossier_no) else none))

/-- Lookup map_by_dossier: (name, code) pairs of one dossier, in mapping
order; an empty result models absence of the dossier key. -/
def map_by_dossier (refs : RefData) (bag : Option String) :
    List (String × String) :=
  (mapping refs).filterMap (fun e =>
    if e.bag_dossier_no = bag then some (e.indication_name_de, e.code_value)
    else none)

def setMatched (s : Segment) (code src : String) : Segment :=
  { s with matched_code_value := some code, matched_code_source := some src }

/-- Guard shared by every cascade pass: only segments whose
matched_code_value is still null and whose German name is non-null are
processed; all other segments pass through unchanged. This models both
the IS NULL filters of the source queries and the matched_ids skip of
each layer loop. -/
def overUnmatched (f : Segment → String → Segment) (st : List Segment) :
    List Segment :=
  st.map (fun s =>
    if s.matched_code_value.isSome then s
    else
      match s.indication_name_de with
      | none => s
      | some name => f s name)

/-- Body of _annotate_segments_with_existing_codes: skip structural
names, then take the first map entry with this exact name whose code
already sits on the same limitation. -/
def annotateSeg (refs : RefData) (s : Segment) (name : String) : Segment :=
  if is_structural_name (some name) then s
  else
    match refs.name_code_map.find? (fun m =>
        m.indication_name_de = name ∧
        refs.codes.any (fun c =>
          c.limitation_id = s.limitation_id ∧ c.code_value = m.code_value)) with
    | some m => setMatched s m.code_value "EXISTING"
    | none => s

/-- Layer 1 of similarity_segment_mapping: a code embedded literally in
the segment name wins. -/
def layer1Seg (s : Segment) (name : String) : Segment :=
  match reSearch RE_NUMERIC name.data with
  | some m =>
      setMatched s ((groupStr name.data m 1).getD []).asString "EMBEDDED_IN_NAME"
  | none => s

/-- Layer 2 of similarity_segment_mapping: exact normalized match, first
same-dossier candidate; otherwise cross-dossier synthesis, only when
every candidate shares one indication part and the segment dossier is
truthy. -/
def layer2Seg (refs : RefData) (s : Segment) (name : String) : Segment :=
  let cands := map_by_norm_name refs (segKeyNorm name)
  match cands.find? (fun e => e.2 = s.bag_dossier_no) with
  | some e => setMatched s e.1 "NORMALIZED_MATCH"
  | none =>
    match cands with
    | [] => s
    | e0 :: rest =>
      if rest.all (fun e => ind_part e.1 = ind_part e0.1) then
        match s.bag_dossier_no with
        | some b =>
            if b ≠ "" then
              setMatched s (b ++ "." ++ ind_part e0.1) "NORMALIZED_CROSS"
            else s
        | none => s
      else s

/-- One variant attempt of layer 2c against the pipe-part index: same
dossier first, then unique-suffix cross-dossier; none continues with the
next variant, exactly like the source loop. -/
def layer2cVariant (refs : RefData) (s : Segment) (variant : String) :
    Option Segment :=
  let cands := map_by_pipe_part refs variant
  match cands with
  | [] => none
  | e0 :: rest =>
    match cands.find? (fun e => e.2 = s.bag_dossier_no) with
    | some e => some (setMatched s e.1 "PIPE_PART_MATCH")
    | none =>
      if rest.all (fun e => ind_part e.1 = ind_part e0.1) then
        match s.bag_dossier_no with
        | some b =>
            if b ≠ "" then
              some (setMatched s (b ++ "." ++ ind_part e0.1) "PIPE_PART_CROSS")
            else none
        | none => none
      else none

/-- Layer 2c of similarity_segment_mapping: pipe-part matching over the
normalized and the Kombination-normalized variant, then the
Kombination-normalized form against the standard brand map. -/
def layer2cSeg (refs : RefData) (s : Segment) (name : String) : Segment :=
  let seg_norm := segKeyNorm name
  let seg_kombi := pyLower (normalize_brands (normalize_kombination
    (normalize_indication_name (some name))))
  match layer2cVariant refs s seg_norm with
  | some s2 => s2
  | none =>
    match layer2cVariant refs s seg_kombi with
    | some s2 => s2
    | none =>
      if seg_kombi ≠ seg_norm then
        let bcands := map_by_brand_norm refs seg_kombi
        match bcands.find? (fun e => e.2 = s.bag_dossier_no) with
        | some e => setMatched s e.1 "KOMBI_NORMALIZED"
        | none =>
          match bcands with
          | [] => s
          | e0 :: rest =>
            if rest.all (fun e => ind_part e.1 = ind_part e0.1) then
              match s.bag_dossier_no with
              | some b =>
                  if b ≠ "" then
                    setMatched s (b ++ "." ++ ind_part e0.1) "KOMBI_CROSS"
                  else s
              | none => s
            else s
      else s

/-- Layer 3 of similarity_segment_mapping: brand-normalized match, same
dossier first, then unique-suffix cross-dossier synthesis. -/
def layer3Seg (refs : RefData) (s : Segment) (name : String) : Segment :=
  let cands := map_by_brand_norm refs
    (pyLower (normalize_brands (normalize_indication_name (some name))))
  match cands.find? (fun e => e.2 = s.bag_dossier_no) with
  | some e => setMatched s e.1 "BRAND_NORMALIZED"
  | none =>
    match cands with
    | [] => s
    | e0 :: rest =>
      if rest.all (fun e => ind_part e.1 = ind_part e0.1) then
        match s.bag_dossier_no with
        | some b =>
            if b ≠ "" then
              setMatched s (b ++ "." ++ ind_part e0.1) "BRAND_CROSS"
            else s
        | none => s
      else s

/-- Layer 4 of similarity_segment_mapping: best SequenceMatcher ratio
over the same-dossier map entries; accept at ratio at least 0.90 with a
gap of at least 0.05 to the runner-up, or a mutual-prefix match with
ratio at least 0.92. -/
def layer4Seg (refs : RefData) (s : Segment) (name : String) : Segment :=
  let dos := map_by_dossier refs s.bag_dossier_no
  if dos.isEmpty then s
  else
    let seg_norm := segKeyNorm name
    let acc := dos.foldl
      (fun (st : (Nat × Nat) × (Nat × Nat) × Option String × Option String) nc =>
        let ratio := sm_similarity seg_norm.data
          (pyLower (normalize_indication_name (some nc.1))).data
        if frLt st.1 ratio then (ratio, st.1, some nc.2, some nc.1)
        else if frLt st.2.1 ratio then (st.1, ratio, st.2.2.1, st.2.2.2)
        else st)
      ((0, 1), (0, 1), none, none)
    let best := acc.1
    let second := acc.2.1
    let bmn := match acc.2.2.2 with
      | some n => pyLower (normalize_indication_name (some n))
      | none => ""
    let pref := bmn.data.isPrefixOf seg_norm.data ||
      seg_norm.data.isPrefixOf bmn.data
    if frGe best 9 10 && (frGapGe20 best second || (pref && frGe best 23 25)) then
      setMatched s ((acc.2.2.1).getD "") "FUZZY_MATCHED"
    else s

/-- Layer 5 of similarity_segment_mapping: a limitation with exactly one
segment in the table and exactly one code whose value does not start
with FALLBACK gets that code. -/
def layer5Seg (refs : RefData) (st : List Segment) (s : Segment)
    (_name : String) : Segment :=
  if (st.filter (fun q => q.limitation_id = s.limitation_id)).length ≠ 1 then s
  else
    match (refs.codes.filter (fun c =>
        c.limitation_id = s.limitation_id ∧
        ¬ "FALLBACK".data.isPrefixOf c.code_value.data)).map
        (fun c => c.code_value) with
    | [c] => setMatched s c "SINGLE_SEGMENT_CODE"
    | _ => s

/-- Layer 6 of similarity_segment_mapping: when at least two segments of
a limitation are all still unmatched and named, the whole limitation has
no other segments, and the non-FALLBACK code count equals the segment
count, pair codes sorted by value with segments sorted by order. -/
def layer6Seg (refs : RefData) (st : List Segment) (s : Segment)
    (_name : String) : Segment :=
  let group := st.filter (fun q =>
    q.limitation_id = s.limitation_id ∧ q.matched_code_value = none ∧
    q.indication_name_de ≠ none)
  if group.length < 2 then s
  else if (st.filter (fun q => q.limitation_id = s.limitation_id)).length ≠
      group.length then s
  else
    let cds := sortStable (fun a b => lexLt a.data b.data)
      ((refs.codes.filter (fun c =>
        c.limitation_id = s.limitation_id ∧
        ¬ "FALLBACK".data.isPrefixOf c.code_value.data)).map
        (fun c => c.code_value))
    if cds.length ≠ group.length then s
    else
      let sorted := sortStable (fun a b => a.segment_order < b.segment_order)
        group
      match sorted.enum.find? (fun p => p.2.segment_id = s.segment_id) with
      | some p =>
          match cds[p.1]? with
          | some c => setMatched s c "ORDINAL_POSITION"
          | none => s
      | none => s

/-- The matching pipeline in source order: the annotate pre-pass of
phase 4c, then the six similarity layers of phase 4d. Each pass
processes only segments still unmatched. -/
def pipeline (refs : RefData) : List (List Segment → List Segment) :=
  [overUnmatched (annotateSeg refs),
   overUnmatched layer1Seg,
   overUnmatched (layer2Seg refs),
   overUnmatched (layer2cSeg refs),
   overUnmatched (layer3Seg refs),
   overUnmatched (layer4Seg refs),
   fun st => overUnmatched (layer5Seg refs st) st,
   fun st => overUnmatched (layer6Seg refs st) st]

/-- State after the first n passes of the pipeline. -/
def applyPrefix (refs : RefData) (n : Nat) (st : List Segment) :
    List Segment :=
  ((pipeline refs).take n).foldl (fun acc f => f acc) st

/-- Full cascade run. -/
def run_pipeline (refs : RefData) (st : List Segment) : List Segment :=
  (pipeline refs).foldl (fun acc f => f acc) st

/-- Matched code of the segment at position k. -/
def matchedAt (st : List Segment) (k : Nat) : Option String :=
  (st[k]?).bind (fun s => s.matched_code_value)

end EL

namespace BDB

open Py Src

/-- Function _normalize_indication_name of build_sku_indication_db.py:
like the extract_limitations variant but lowercasing at the end. -/
def normalize_indication_name (name : Option String) : String :=
  match name with
  | none => ""
  | some s =>
    if s = "" then "" else
    pyLower (collapseWs (pyStrip (dropTrailing (fun c => c = ':')
      (pyStrip s.data)))).asString

/-- Row of indication_code_name as read when building the layer-5
lookups of build_code_name_mapping. -/
structure ICNEntry where
  indication_code : String
  indication_name_de : Option String
  bag_dossier_no : Option String
deriving DecidableEq, Repr

/-- Lookup norm_lookup of layer 5: entries with a truthy German name,
keyed by the normalized (lowercased) name. -/
def norm_lookup (icn : List ICNEntry) (key : String) :
    List (String × Option String) :=
  icn.filterMap (fun e =>
    if truthy e.indication_name_de ∧
        normalize_indication_name e.indication_name_de = key then
      some (e.indication_code, e.bag_dossier_no)
    else none)

/-- Lookup brand_lookup of layer 5: keyed by the brand-normalized form
of the normalized name. -/
def brand_lookup (icn : List ICNEntry) (key : String) :
    List (String × Option String) :=
  icn.filterMap (fun e =>
    if truthy e.indication_name_de ∧
        normalize_brands (normalize_indication_name e.indication_name_de) = key
    then some (e.indication_code, e.bag_dossier_no)
    else none)

/-- Dossier of a segment in layer 5 of build_code_name_mapping:
code.split(".")[0] if "." in code else None, where code is the
indication code joined onto the segment text. -/
def seg_dossier (code : String) : Option String :=
  if code.data.contains '.' then
    some ((splitOnChar '.' code.data).headD []).asString
  else none

/-- Loop body of layer 5 of build_code_name_mapping for one unmatched
segment name: 5a exact normalized same-dossier match; 5b cross-dossier
synthesis from the FIRST candidate (no uniqueness test in this source
file); 5c brand-normalized match, same dossier then cross from the first
brand candidate. Returns the inserted code and source tag, if any. -/
def code_name_layer5 (icn : List ICNEntry) (name_de : String)
    (code : String) : Option (String × String) :=
  let dossier := seg_dossier code
  let norm_name := normalize_indication_name (some name_de)
  let cands := norm_lookup icn norm_name
  let same := cands.filter (fun e => e.2 = dossier)
  if ¬ same.isEmpty then
    some ((same.headD ("", none)).1, "NORM_SAME")
  else
    let cross :=
      match cands with
      | [] => none
      | e0 :: _ =>
        if e0.1.data.contains '.' ∧ truthy dossier then
          some ((dossier.getD "") ++ "." ++ EL.ind_part e0.1, "NORM_CROSS")
        else none
    match cross with
    | some r => some r
    | none =>
      let brand_norm := normalize_brands norm_name
      let bcands := brand_lookup icn brand_norm
      if brand_norm ≠ norm_name ∧ ¬ bcands.isEmpty then
        let bsame := bcands.filter (fun e => e.2 = dossier)
        if ¬ bsame.isEmpty then
          some ((bsame.headD ("", none)).1, "BRAND_SAME")
        else
          match bcands with
          | [] => none
          | e0 :: _ =>
            if e0.1.data.contains '.' ∧ truthy dossier then
              some ((dossier.getD "") ++ "." ++ EL.ind_part e0.1, "BRAND_CROSS")
            else none
      else none

/-- One text_segment row as read by layer 4 of build_code_name_mapping. -/
structure SegNames where
  segment_id : Nat
  segment_order : Nat
  name_de : Option String
  name_fr : Option String
  name_it : Option String
deriving DecidableEq, Repr

/-- Sort key of layer 4: c.split(".")[-1] if "." in c else c. -/
def suffix_key (c : String) : String :=
  if c.data.contains '.' then ((splitOnChar '.' c.data).getLastD []).asString
  else c

/-- Layer 4 of build_code_name_mapping for one text: given its distinct
STRUCTURED_XML or TEXT_PARSED codes and its segments, require more than
one code, segment count equal to code count and a single dossier over
the dotted codes, then pair the codes sorted by indication-part suffix
with the segments sorted by order, index for index. -/
def ordinal_position_pairs (codes : List String) (segs : List SegNames) :
    List (String × SegNames) :=
  if codes.length ≤ 1 then []
  else if segs.length ≠ codes.length then []
  else
    let dossiers := dedup ((codes.filter (fun c => c.data.contains '.')).map
      (fun c => ((splitOnChar '.' c.data).headD []).asString))
    if dossiers.length ≠ 1 then []
    else
      let sorted_codes := sortStable
        (fun a b => lexLt (suffix_key a).data (suffix_key b).data) codes
      let sorted_segs := sortStable
        (fun a b => a.segment_order < b.segment_order) segs
      sorted_codes.zip sorted_segs

/-- Filter of segment_texts (phase 3b of build_sku_indication_db.py):
keep a segment unless the first truthy of its German, French, Italian
names is structural; a missing language falls through to the next. -/
def segment_texts_rows (desc_de desc_fr desc_it : Option String) :
    List Src.SegRow :=
  (split_limitation_texts desc_de desc_fr desc_it).filter (fun seg =>
    ¬ is_structural_name (orPy seg.name_de (orPy seg.name_fr seg.name_it)))

/-- Code-extraction portion of process_limitation of
build_sku_indication_db.py: structured codes win, else text-parsed
codes, else the dossier sentinel for DIA limitations with a truthy
dossier; the source string reports which layer fired. -/
def process_limitation_codes (lim : LimElem) (bag_dossier_no : Option String) :
    List String × String :=
  let c1 := extract_codes_structured lim
  let cs :=
    if c1.isEmpty then
      (extract_codes_from_text lim.descDe lim.descFr lim.descIt, "TEXT_PARSED")
    else (c1, "STRUCTURED_XML")
  if cs.1.isEmpty ∧ lim.limitationType = some "DIA" ∧ truthy bag_dossier_no then
    ([(bag_dossier_no.getD "") ++ ".XX"], "FALLBACK_XX")
  else cs

end BDB

namespace EL

open Py Src

/-- Filter of build_indication_segments (phase 4b of
extract_limitations.py): keep a segment unless its GERMAN name is
structural — a null German name counts as structural — and renumber the
kept segments densely. -/
def build_indication_segments_rows (desc_de desc_fr desc_it : Option String) :
    List Src.SegRow :=
  (((split_limitation_texts desc_de desc_fr desc_it).filter (fun s =>
    ¬ is_structural_name s.name_de)).enum).map
    (fun p => { p.2 with order := p.1 })

/-- Code-extraction portion of process_limitation of
extract_limitations.py: identical three-layer cascade, but the fallback
sentinel stored in indication_code is lowercase
(bag_dossier_no followed by .xx). -/
def process_limitation_codes (lim : LimElem) (bag_dossier_no : Option String) :
    List String × String :=
  let c1 := extract_codes_structured lim
  let cs :=
    if c1.isEmpty then
      (extract_codes_from_text lim.descDe lim.descFr lim.descIt, "TEXT_PARSED")
    else (c1, "STRUCTURED_XML")
  if cs.1.isEmpty ∧ lim.limitationType = some "DIA" ∧ truthy bag_dossier_no then
    ([(bag_dossier_no.getD "") ++ ".xx"], "FALLBACK_XX")
  else cs

/-- Link-code normalization of process_limitation: codes written to
limitation_code_link, where a fallback code becomes the uppercase
dossier sentinel. -/
def link_codes (codes : List String) (source : String)
    (bag_dossier_no : Option String) : List String :=
  codes.map (fun c =>
    if source = "FALLBACK_XX" then (bag_dossier_no.getD "") ++ ".XX" else c)

end EL

/-
Theorems. Shared helper lemmas first, then one theorem per claim with
its witness or counterexample.
-/

namespace BDB

/-- Characterization of the fanout inner-loop decision. -/
theorem fanout_pair_eq_some (link : PrepLink) (sku : SkuT)
    (l : SkuIndication) :
    fanout_pair link sku = some l ↔
      ¬ (sku.last_ext < link.first_seen_extract ∨
         link.last_seen_extract < sku.first_ext) ∧
      (link.limitation_level = "PACK" →
        sku.bag_dossier_no = some (code_dossier link.indication_code)) ∧
      l = { gtin := sku.gtin, indication_code := link.indication_code,
            text_id := link.text_id, code_source := link.code_source,
            limitation_level := link.limitation_level,
            is_fallback := link.is_fallback,
            eff_first := max sku.first_ext link.first_seen_extract,
            eff_last := min sku.last_ext link.last_seen_extract } := by
  unfold fanout_pair
  split_ifs with h1 h2
  · simp only [false_iff]
    intro h
    exact h.1 h1
  · simp only [false_iff]
    intro h
    exact h2.2 (h.2.1 h2.1)
  · rw [not_and_or, not_not] at h2
    constructor
    · intro h
      refine ⟨h1, ?_, ?_⟩
      · intro hp
        rcases h2 with h2 | h2
        · exact absurd hp h2
        · exact h2
      · exact (Option.some.injEq _ _).mp h |>.symm
    · intro h
      rw [h.2.2]

end BDB

/-- C1: for every preparation-level code association and every pack of the
same preparation, fan-out creates a SKU-code link if and only if the two
extract intervals overlap and, for a pack-scoped association, the pack
dossier equals the code dossier part; every created link carries the
interval intersection, so its validity is never empty. -/
theorem claim_C1 (skus : List BDB.SkuT) (link : BDB.PrepLink)
    (hs : ∀ sku ∈ skus, sku.first_ext ≤ sku.last_ext)
    (hl : link.first_seen_extract ≤ link.last_seen_extract) :
    (∀ l : BDB.SkuIndication,
      l ∈ BDB.fanout_link skus link ↔
        ∃ sku ∈ skus,
          sku.preparation_id = link.preparation_id ∧
          ¬ (sku.last_ext < link.first_seen_extract ∨
             link.last_seen_extract < sku.first_ext) ∧
          (link.limitation_level = "PACK" →
            sku.bag_dossier_no = some (BDB.code_dossier link.indication_code)) ∧
          l = { gtin := sku.gtin, indication_code := link.indication_code,
                text_id := link.text_id, code_source := link.code_source,
                limitation_level := link.limitation_level,
                is_fallback := link.is_fallback,
                eff_first := max sku.first_ext link.first_seen_extract,
                eff_last := min sku.last_ext link.last_seen_extract }) ∧
    (∀ l ∈ BDB.fanout_link skus link, l.eff_first ≤ l.eff_last) := by
  have hmem : ∀ l : BDB.SkuIndication,
      l ∈ BDB.fanout_link skus link ↔
        ∃ sku ∈ skus,
          sku.preparation_id = link.preparation_id ∧
          ¬ (sku.last_ext < link.first_seen_extract ∨
             link.last_seen_extract < sku.first_ext) ∧
          (link.limitation_level = "PACK" →
            sku.bag_dossier_no = some (BDB.code_dossier link.indication_code)) ∧
          l = { gtin := sku.gtin, indication_code := link.indication_code,
                text_id := link.text_id, code_source := link.code_source,
                limitation_level := link.limitation_level,
                is_fallback := link.is_fallback,
                eff_first := max sku.first_ext link.first_seen_extract,
                eff_last := min sku.last_ext link.last_seen_extract } := by
    intro l
    unfold BDB.fanout_link
    rw [List.mem_filterMap]
    constructor
    · rintro ⟨sku, hin, hp⟩
      rw [List.mem_filter] at hin
      rw [BDB.fanout_pair_eq_some] at hp
      exact ⟨sku, hin.1, by simpa using hin.2, hp.1, hp.2.1, hp.2.2⟩
    · rintro ⟨sku, hin, hprep, hov, hpk, hl2⟩
      refine ⟨sku, ?_, ?_⟩
      · rw [List.mem_filter]
        exact ⟨hin, by simpa using hprep⟩
      · rw [BDB.fanout_pair_eq_some]
        exact ⟨hov, hpk, hl2⟩
  refine ⟨hmem, ?_⟩
  intro l hlmem
  obtain ⟨sku, hin, _, hov, _, rfl⟩ := (hmem l).mp hlmem
  have h1 := hs sku hin
  simp only [not_or, not_lt] at hov
  simp only [ge_iff_le, le_min_iff, max_le_iff]
  omega

/-- Concrete instance of C1: a pack seen in extracts 3 to 7 and an
association seen in extract 5 produce exactly the link valid at 5. -/
theorem claim_C1_witness :
    ({ gtin := "g1", indication_code := "11111.01", text_id := 1,
       code_source := "STRUCTURED_XML", limitation_level := "PREPARATION",
       is_fallback := false, eff_first := 5,
       eff_last := 5 } : BDB.SkuIndication).eff_first ≤
      ({ gtin := "g1", indication_code := "11111.01", text_id := 1,
         code_source := "STRUCTURED_XML", limitation_level := "PREPARATION",
         is_fallback := false, eff_first := 5,
         eff_last := 5 } : BDB.SkuIndication).eff_last :=
  (claim_C1
    [{ gtin := "g1", preparation_id := 1, bag_dossier_no := some "11111",
       first_ext := 3, last_ext := 7 }]
    { preparation_id := 1, text_id := 1, indication_code := "11111.01",
      code_source := "STRUCTURED_XML", limitation_level := "PREPARATION",
      is_fallback := false, first_seen_extract := 5, last_seen_extract := 5 }
    (by decide) (by decide)).2 _ (by decide)

namespace BDB

/-- Pointwise effect of one sku upsert on every stored row: the row of
the observed GTIN advances last_seen_extract and refreshes the two
prices, every other field and every other row is unchanged. -/
theorem applySkuObs_getElem (store : List SkuRow) (o : SkuObs) (k : Nat)
    (r : SkuRow) (h : store[k]? = some r) :
    (applySkuObs store o)[k]? = some
      (if r.gtin = o.gtin then
        { r with last_seen_extract := o.extract_id,
                 public_price := coalesce o.public_price r.public_price,
                 exfactory_price := coalesce o.exfactory_price r.exfactory_price }
      else r) := by
  have hrmem : r ∈ store := List.getElem?_mem h
  unfold applySkuObs upsert_sku
  by_cases hf : (store.find? (fun q => q.gtin = o.gtin)).isSome = true
  · rw [if_pos hf, List.getElem?_map, h]
    rfl
  · have hnone : store.find? (fun q => q.gtin = o.gtin) = none := by
      cases hfind : store.find? (fun q => q.gtin = o.gtin) with
      | none => rfl
      | some v => rw [hfind] at hf; simp at hf
    have hng : ¬ (r.gtin = o.gtin) := by
      have := List.find?_eq_none.mp hnone r hrmem
      simpa using this
    rw [if_neg hf, if_neg hng]
    have hk : k < store.length := by
      rcases List.getElem?_eq_some_iff.mp h with ⟨hlt, _⟩
      exact hlt
    rw [List.getElem?_append_left hk]
    exact h

/-- Pointwise effect of one limitation-text upsert on an arbitrary
stored row: content hash, texts and first_seen_extract are never
rewritten, and last_seen_extract either stays or advances to the current
extract. -/
theorem applyTextObs_getElem (store : List LimitationTextRow) (o : TextObs)
    (k : Nat) (r : LimitationTextRow) (h : store[k]? = some r) :
    ∃ r2, (applyTextObs store o)[k]? = some r2 ∧
      r2.content_hash = r.content_hash ∧
      r2.first_seen_extract = r.first_seen_extract ∧
      r2.description_de = r.description_de ∧
      r2.description_fr = r.description_fr ∧
      r2.description_it = r.description_it ∧
      (r2.last_seen_extract = r.last_seen_extract ∨
        r2.last_seen_extract = o.extract_id) := by
  unfold applyTextObs upsert_limitation_text
  cases hfind : store.find? (fun q => q.content_hash = o.content_hash) with
  | some v =>
    simp only [List.getElem?_map, h, Option.map_some']
    by_cases ht : r.text_id = v.text_id
    · exact ⟨{ r with last_seen_extract := o.extract_id }, by rw [if_pos ht],
        rfl, rfl, rfl, rfl, rfl, Or.inr rfl⟩
    · exact ⟨r, by rw [if_neg ht], rfl, rfl, rfl, rfl, rfl, Or.inl rfl⟩
  | none =>
    have hk : k < store.length := by
      rcases List.getElem?_eq_some_iff.mp h with ⟨hlt, _⟩
      exact hlt
    refine ⟨r, ?_, rfl, rfl, rfl, rfl, rfl, Or.inl rfl⟩
    simp only []
    rw [List.getElem?_append_left hk]
    exact h

/-- On a content-hash hit, the found row advances its last_seen_extract
to the current extract and keeps everything else. -/
theorem applyTextObs_found (store : List LimitationTextRow) (o : TextObs)
    (v : LimitationTextRow)
    (hfind : store.find? (fun q => q.content_hash = o.content_hash) = some v) :
    ∃ k : Nat, store[k]? = some v ∧
      (applyTextObs store o)[k]? =
        some { v with last_seen_extract := o.extract_id } := by
  have hvmem : v ∈ store := List.mem_of_find?_eq_some hfind
  obtain ⟨k, hk⟩ := List.getElem?_of_mem hvmem
  refine ⟨k, hk, ?_⟩
  unfold applyTextObs upsert_limitation_text
  rw [hfind]
  simp only [List.getElem?_map, hk, Option.map_some']
  simp

end BDB

namespace BDB

/-- Invariant carried through a chronological run of sku upserts: every
row satisfies first_seen ≤ last_seen, with last_seen bounded by the
extracts seen so far. -/
theorem runSku_inv_aux (obs : List SkuObs) :
    ∀ (store : List SkuRow) (m : Nat),
    (∀ r ∈ store, r.first_seen_extract ≤ r.last_seen_extract ∧
      r.last_seen_extract ≤ m) →
    List.Chain (· ≤ ·) m (obs.map (fun o => o.extract_id)) →
    ∀ r ∈ obs.foldl applySkuObs store,
      r.first_seen_extract ≤ r.last_seen_extract := by
  induction obs with
  | nil =>
    intro store m hst _ r hr
    exact (hst r (by simpa using hr)).1
  | cons o rest ih =>
    intro store m hst hch r hr
    rw [List.map_cons] at hch
    have hme : m ≤ o.extract_id := by cases hch with | cons h _ => exact h
    have hch2 : List.Chain (· ≤ ·) o.extract_id
        (rest.map (fun x => x.extract_id)) := by
      cases hch with | cons _ h => exact h
    rw [List.foldl_cons] at hr
    refine ih (applySkuObs store o) o.extract_id ?_ hch2 r hr
    intro q hq
    unfold applySkuObs upsert_sku at hq
    by_cases hf : (store.find? (fun x => x.gtin = o.gtin)).isSome = true
    · rw [if_pos hf] at hq
      rw [List.mem_map] at hq
      obtain ⟨p, hp, rfl⟩ := hq
      have hpinv := hst p hp
      by_cases hg : p.gtin = o.gtin
      · rw [if_pos hg]
        exact ⟨le_trans hpinv.1 (le_trans hpinv.2 hme), le_refl _⟩
      · rw [if_neg hg]
        exact ⟨hpinv.1, le_trans hpinv.2 hme⟩
    · rw [if_neg hf] at hq
      rw [List.mem_append] at hq
      rcases hq with hq | hq
      · have := hst q hq
        exact ⟨this.1, le_trans this.2 hme⟩
      · rw [List.mem_singleton] at hq
        subst hq
        exact ⟨le_refl _, le_refl _⟩

/-- Same invariant for chronological runs of limitation-text upserts. -/
theorem runText_inv_aux (obs : List TextObs) :
    ∀ (store : List LimitationTextRow) (m : Nat),
    (∀ r ∈ store, r.first_seen_extract ≤ r.last_seen_extract ∧
      r.last_seen_extract ≤ m) →
    List.Chain (· ≤ ·) m (obs.map (fun o => o.extract_id)) →
    ∀ r ∈ obs.foldl applyTextObs store,
      r.first_seen_extract ≤ r.last_seen_extract := by
  induction obs with
  | nil =>
    intro store m hst _ r hr
    exact (hst r (by simpa using hr)).1
  | cons o rest ih =>
    intro store m hst hch r hr
    rw [List.map_cons] at hch
    have hme : m ≤ o.extract_id := by cases hch with | cons h _ => exact h
    have hch2 : List.Chain (· ≤ ·) o.extract_id
        (rest.map (fun x => x.extract_id)) := by
      cases hch with | cons _ h => exact h
    rw [List.foldl_cons] at hr
    refine ih (applyTextObs store o) o.extract_id ?_ hch2 r hr
    intro q hq
    unfold applyTextObs upsert_limitation_text at hq
    cases hfind : store.find? (fun x => x.content_hash = o.content_hash) with
    | some v =>
      rw [hfind] at hq
      rw [List.mem_map] at hq
      obtain ⟨p, hp, rfl⟩ := hq
      have hpinv := hst p hp
      by_cases hg : p.text_id = v.text_id
      · rw [if_pos hg]
        exact ⟨le_trans hpinv.1 (le_trans hpinv.2 hme), le_refl _⟩
      · rw [if_neg hg]
        exact ⟨hpinv.1, le_trans hpinv.2 hme⟩
    | none =>
      rw [hfind] at hq
      rw [List.mem_append] at hq
      rcases hq with hq | hq
      · have := hst q hq
        exact ⟨this.1, le_trans this.2 hme⟩
      · rw [List.mem_singleton] at hq
        subst hq
        exact ⟨le_refl _, le_refl _⟩

/-- Chains of nondecreasing naturals may start at zero. -/
theorem chain_zero_of_chain' {l : List Nat}
    (h : List.Chain' (· ≤ ·) l) : List.Chain (· ≤ ·) 0 l := by
  cases l with
  | nil => exact List.Chain.nil
  | cons a as => exact List.Chain.cons (Nat.zero_le a) h

end BDB

/-- C4: the versioned upsert inserts first_seen = last_seen = sequence on
a missing key; on a present key it only advances last_seen (refreshing
the mutable price fields) and never rewrites first_seen; consequently
every row of a chronological run satisfies first_seen ≤ last_seen. Both
the sku and the limitation_text upsert are covered. -/
theorem claim_C4 :
    (∀ (store : List BDB.SkuRow) (o : BDB.SkuObs),
      store.find? (fun r => r.gtin = o.gtin) = none →
      BDB.applySkuObs store o = store ++
        [{ gtin := o.gtin, swissmedic_no8 := o.swissmedic_no8,
           swissmedic_no5 := o.swissmedic_no5,
           bag_dossier_no := o.bag_dossier_no,
           preparation_id := o.preparation_id,
           product_name := o.product_name, atc_code := o.atc_code,
           org_gen_code := o.org_gen_code,
           description_de := o.description_de,
           public_price := o.public_price,
           exfactory_price := o.exfactory_price,
           first_seen_extract := o.extract_id,
           last_seen_extract := o.extract_id }]) ∧
    (∀ (store : List BDB.SkuRow) (o : BDB.SkuObs) (k : Nat) (r : BDB.SkuRow),
      store[k]? = some r →
      (BDB.applySkuObs store o)[k]? = some
        (if r.gtin = o.gtin then
          { r with last_seen_extract := o.extract_id,
                   public_price := BDB.coalesce o.public_price r.public_price,
                   exfactory_price :=
                     BDB.coalesce o.exfactory_price r.exfactory_price }
        else r)) ∧
    (∀ obs : List BDB.SkuObs,
      List.Chain' (· ≤ ·) (obs.map (fun o => o.extract_id)) →
      ∀ r ∈ BDB.runSkuUpserts obs,
        r.first_seen_extract ≤ r.last_seen_extract) ∧
    (∀ (store : List BDB.LimitationTextRow) (o : BDB.TextObs),
      store.find? (fun r => r.content_hash = o.content_hash) = none →
      BDB.applyTextObs store o = store ++
        [{ text_id := store.length + 1, content_hash := o.content_hash,
           limitation_code := o.limitation_code,
           limitation_type := o.limitation_type,
           limitation_niveau := o.limitation_niveau,
           description_de := o.description_de,
           description_fr := o.description_fr,
           description_it := o.description_it,
           first_seen_extract := o.extract_id,
           last_seen_extract := o.extract_id }]) ∧
    (∀ (store : List BDB.LimitationTextRow) (o : BDB.TextObs)
      (v : BDB.LimitationTextRow),
      store.find? (fun r => r.content_hash = o.content_hash) = some v →
      ∃ k : Nat, store[k]? = some v ∧
        (BDB.applyTextObs store o)[k]? =
          some { v with last_seen_extract := o.extract_id }) ∧
    (∀ obs : List BDB.TextObs,
      List.Chain' (· ≤ ·) (obs.map (fun o => o.extract_id)) →
      ∀ r ∈ BDB.runTextUpserts obs,
        r.first_seen_extract ≤ r.last_seen_extract) := by
  refine ⟨?_, BDB.applySkuObs_getElem, ?_, ?_, BDB.applyTextObs_found, ?_⟩
  · intro store o h
    unfold BDB.applySkuObs BDB.upsert_sku
    rw [if_neg (by simp [h])]
  · intro obs hch
    exact BDB.runSku_inv_aux obs [] 0 (by simp)
      (BDB.chain_zero_of_chain' hch)
  · intro store o h
    unfold BDB.applyTextObs BDB.upsert_limitation_text
    rw [h]
  · intro obs hch
    exact BDB.runText_inv_aux obs [] 0 (by simp)
      (BDB.chain_zero_of_chain' hch)

/-- Concrete instance of C4: a GTIN observed in extracts 1 and 2 ends
with first_seen 1 and last_seen 2. -/
theorem claim_C4_witness :
    ({ gtin := "g1", swissmedic_no8 := none, swissmedic_no5 := "11111",
       bag_dossier_no := none, preparation_id := 1, product_name := none,
       atc_code := none, org_gen_code := none, description_de := none,
       public_price := none, exfactory_price := none,
       first_seen_extract := 1,
       last_seen_extract := 2 } : BDB.SkuRow).first_seen_extract ≤
      ({ gtin := "g1", swissmedic_no8 := none, swissmedic_no5 := "11111",
         bag_dossier_no := none, preparation_id := 1, product_name := none,
         atc_code := none, org_gen_code := none, description_de := none,
         public_price := none, exfactory_price := none,
         first_seen_extract := 1,
         last_seen_extract := 2 } : BDB.SkuRow).last_seen_extract :=
  claim_C4.2.2.1
    [{ extract_id := 1, gtin := "g1", swissmedic_no8 := none,
       swissmedic_no5 := "11111", bag_dossier_no := none,
       preparation_id := 1, product_name := none, atc_code := none,
       org_gen_code := none, description_de := none, public_price := none,
       exfactory_price := none },
     { extract_id := 2, gtin := "g1", swissmedic_no8 := none,
       swissmedic_no5 := "11111", bag_dossier_no := none,
       preparation_id := 1, product_name := none, atc_code := none,
       org_gen_code := none, description_de := none, public_price := none,
       exfactory_price := none }]
    (List.Chain.cons (by decide) List.Chain.nil) _ (by decide)

namespace BDB

/-- The first limitation-text upsert into an empty table inserts one
row. -/
theorem applyTextObs_nil (o : TextObs) :
    applyTextObs [] o =
      [{ text_id := 1, content_hash := o.content_hash,
         limitation_code := o.limitation_code,
         limitation_type := o.limitation_type,
         limitation_niveau := o.limitation_niveau,
         description_de := o.description_de,
         description_fr := o.description_fr,
         description_it := o.description_it,
         first_seen_extract := o.extract_id,
         last_seen_extract := o.extract_id }] := rfl

/-- Two successive limitation-text upserts produce one row exactly when
the content hashes agree, two rows otherwise. -/
theorem text_run_two (o1 o2 : TextObs) :
    (runTextUpserts [o1, o2]).length =
      if o2.content_hash = o1.content_hash then 1 else 2 := by
  unfold runTextUpserts
  rw [List.foldl_cons, List.foldl_cons, List.foldl_nil, applyTextObs_nil]
  unfold applyTextObs upsert_limitation_text
  by_cases h : o1.content_hash = o2.content_hash
  · rw [List.find?_cons_of_pos _ (by simpa using h)]
    rw [if_pos h.symm]
    simp
  · rw [List.find?_cons_of_neg _ (by simpa using h), List.find?_nil]
    rw [if_neg (Ne.symm h)]
    simp

end BDB

namespace Src

/-- Equality of combined strings with shared French and Italian bodies
forces equal German bodies (missing counted as empty). -/
theorem combined_cancel_de (d1 d2 f i : Option String)
    (h : combined_descs d1 f i = combined_descs d2 f i) :
    d1.getD "" = d2.getD "" := by
  unfold combined_descs at h
  have hd := congrArg String.data h
  simp only [String.data_append, List.append_assoc] at hd
  exact String.ext (List.append_cancel_right hd)

/-- Equality of combined strings with shared German and Italian bodies
forces equal French bodies. -/
theorem combined_cancel_fr (d f1 f2 i : Option String)
    (h : combined_descs d f1 i = combined_descs d f2 i) :
    f1.getD "" = f2.getD "" := by
  unfold combined_descs at h
  have hd := congrArg String.data h
  simp only [String.data_append, List.append_assoc] at hd
  have h2 := List.append_cancel_left hd
  have h3 := List.append_cancel_left h2
  exact String.ext (List.append_cancel_right h3)

/-- Equality of combined strings with shared German and French bodies
forces equal Italian bodies. -/
theorem combined_cancel_it (d f i1 i2 : Option String)
    (h : combined_descs d f i1 = combined_descs d f i2) :
    i1.getD "" = i2.getD "" := by
  unfold combined_descs at h
  have hd := congrArg String.data h
  simp only [String.data_append, List.append_assoc] at hd
  have h2 := List.append_cancel_left hd
  have h3 := List.append_cancel_left h2
  have h4 := List.append_cancel_left h3
  have h5 := List.append_cancel_left h4
  exact String.ext h5

/-- Hash congruence: equal combined strings give equal MD5 digests. -/
theorem compute_hash_congr (d1 f1 i1 d2 f2 i2 : Option String)
    (h : combined_descs d1 f1 i1 = combined_descs d2 f2 i2) :
    compute_hash d1 f1 i1 = compute_hash d2 f2 i2 := by
  unfold compute_hash
  rw [h]

end Src

/-- C5: two limitation blocks whose combined three-language text (missing
languages as empty strings) is identical collapse to one limitation_text
row regardless of origin; two blocks that differ in exactly one language
have different combined strings and, their MD5 digests differing, are
stored as two distinct rows. MD5 injectivity is not provable, so the
digest inequality is a hypothesis, discharged by evaluation in the
witness. -/
theorem claim_C5 :
    (∀ (o1 o2 : BDB.TextObs) (d1 f1 i1 d2 f2 i2 : Option String),
      o1.content_hash = Src.compute_hash d1 f1 i1 →
      o2.content_hash = Src.compute_hash d2 f2 i2 →
      Src.combined_descs d1 f1 i1 = Src.combined_descs d2 f2 i2 →
      (BDB.runTextUpserts [o1, o2]).length = 1) ∧
    (∀ (o1 o2 : BDB.TextObs) (d1 d2 f i : Option String),
      o1.content_hash = Src.compute_hash d1 f i →
      o2.content_hash = Src.compute_hash d2 f i →
      d1.getD "" ≠ d2.getD "" →
      Src.compute_hash d1 f i ≠ Src.compute_hash d2 f i →
      Src.combined_descs d1 f i ≠ Src.combined_descs d2 f i ∧
      (BDB.runTextUpserts [o1, o2]).length = 2) ∧
    (∀ (o1 o2 : BDB.TextObs) (d f1 f2 i : Option String),
      o1.content_hash = Src.compute_hash d f1 i →
      o2.content_hash = Src.compute_hash d f2 i →
      f1.getD "" ≠ f2.getD "" →
      Src.compute_hash d f1 i ≠ Src.compute_hash d f2 i →
      Src.combined_descs d f1 i ≠ Src.combined_descs d f2 i ∧
      (BDB.runTextUpserts [o1, o2]).length = 2) ∧
    (∀ (o1 o2 : BDB.TextObs) (d f i1 i2 : Option String),
      o1.content_hash = Src.compute_hash d f i1 →
      o2.content_hash = Src.compute_hash d f i2 →
      i1.getD "" ≠ i2.getD "" →
      Src.compute_hash d f i1 ≠ Src.compute_hash d f i2 →
      Src.combined_descs d f i1 ≠ Src.combined_descs d f i2 ∧
      (BDB.runTextUpserts [o1, o2]).length = 2) := by
  refine ⟨?_, ?_, ?_, ?_⟩
  · intro o1 o2 d1 f1 i1 d2 f2 i2 h1 h2 hcomb
    rw [BDB.text_run_two, if_pos]
    rw [h1, h2]
    exact (Src.compute_hash_congr d1 f1 i1 d2 f2 i2 hcomb).symm
  · intro o1 o2 d1 d2 f i h1 h2 hne hhash
    refine ⟨fun hc => hne (Src.combined_cancel_de d1 d2 f i hc), ?_⟩
    rw [BDB.text_run_two, if_neg]
    rw [h1, h2]
    exact fun hc => hhash hc.symm
  · intro o1 o2 d f1 f2 i h1 h2 hne hhash
    refine ⟨fun hc => hne (Src.combined_cancel_fr d f1 f2 i hc), ?_⟩
    rw [BDB.text_run_two, if_neg]
    rw [h1, h2]
    exact fun hc => hhash hc.symm
  · intro o1 o2 d f i1 i2 h1 h2 hne hhash
    refine ⟨fun hc => hne (Src.combined_cancel_it d f i1 i2 hc), ?_⟩
    rw [BDB.text_run_two, if_neg]
    rw [h1, h2]
    exact fun hc => hhash hc.symm

set_option maxRecDepth 200000 in
/-- Concrete instance of C5: German bodies differing in one character,
French and Italian unchanged, give different combined strings and two
stored rows; the MD5 inequality hypothesis is discharged by computing
both digests. -/
theorem claim_C5_witness :
    Src.combined_descs (some "Morbus Gaucher Typ 1") (some "corps") none ≠
      Src.combined_descs (some "Morbus Gaucher Typ 2") (some "corps") none ∧
    (BDB.runTextUpserts
      [{ extract_id := 1,
         content_hash :=
           Src.compute_hash (some "Morbus Gaucher Typ 1") (some "corps") none,
         limitation_code := none, limitation_type := some "DIA",
         limitation_niveau := none,
         description_de := some "Morbus Gaucher Typ 1",
         description_fr := some "corps", description_it := none },
       { extract_id := 2,
         content_hash :=
           Src.compute_hash (some "Morbus Gaucher Typ 2") (some "corps") none,
         limitation_code := none, limitation_type := some "DIA",
         limitation_niveau := none,
         description_de := some "Morbus Gaucher Typ 2",
         description_fr := some "corps", description_it := none }]).length = 2 :=
  claim_C5.2.1 _ _ (some "Morbus Gaucher Typ 1") (some "Morbus Gaucher Typ 2")
    (some "corps") none rfl rfl (by decide) (by decide)

/-- C10: the deduplication hash is taken over the pipe-joined combined
string, so limitations with different per-language texts but equal
combined strings receive the same hash and collapse to one row; the
concrete pair of the claim is such a collision. -/
theorem claim_C10 :
    (Src.combined_descs (some "a|b") (some "c") (some "") =
        Src.combined_descs (some "a") (some "b|c") (some "") ∧
      (some "a|b" : Option String) ≠ some "a") ∧
    (∀ (o1 o2 : BDB.TextObs) (d1 f1 i1 d2 f2 i2 : Option String),
      o1.content_hash = Src.compute_hash d1 f1 i1 →
      o2.content_hash = Src.compute_hash d2 f2 i2 →
      Src.combined_descs d1 f1 i1 = Src.combined_descs d2 f2 i2 →
      Src.compute_hash d1 f1 i1 = Src.compute_hash d2 f2 i2 ∧
      (BDB.runTextUpserts [o1, o2]).length = 1) := by
  refine ⟨⟨by decide, by decide⟩, ?_⟩
  intro o1 o2 d1 f1 i1 d2 f2 i2 h1 h2 hcomb
  have hh := Src.compute_hash_congr d1 f1 i1 d2 f2 i2 hcomb
  refine ⟨hh, ?_⟩
  rw [BDB.text_run_two, if_pos]
  rw [h1, h2]
  exact hh.symm

/-- Concrete instance of C10: the pair (de=a|b, fr=c, it=empty) and
(de=a, fr=b|c, it=empty) shares one combined string, hence one hash and
one stored row. -/
theorem claim_C10_witness :
    Src.compute_hash (some "a|b") (some "c") (some "") =
      Src.compute_hash (some "a") (some "b|c") (some "") ∧
    (BDB.runTextUpserts
      [{ extract_id := 1,
         content_hash := Src.compute_hash (some "a|b") (some "c") (some ""),
         limitation_code := none, limitation_type := some "DIA",
         limitation_niveau := none, description_de := some "a|b",
         description_fr := some "c", description_it := some "" },
       { extract_id := 2,
         content_hash := Src.compute_hash (some "a") (some "b|c") (some ""),
         limitation_code := none, limitation_type := some "DIA",
         limitation_niveau := none, description_de := some "a",
         description_fr := some "b|c",
         description_it := some "" }]).length = 1 :=
  claim_C10.2 _ _ (some "a|b") (some "c") (some "") (some "a") (some "b|c")
    (some "") rfl rfl (by decide)

/-- C3: indication codes come from a strict first-match-wins three-layer
cascade: structured codes when present; otherwise the union of all
regex-pattern matches over the three unescaped language bodies when
non-empty; otherwise exactly for DIA limitations with a known dossier
the single sentinel dossier.XX (dossier.xx in the indication_code table
of extract_limitations.py, normalized to dossier.XX on its code links);
no code at all otherwise. -/
theorem claim_C3 (lim : Src.LimElem) (bag : Option String) :
    (Src.extract_codes_structured lim ≠ [] →
      BDB.process_limitation_codes lim bag =
        (Src.extract_codes_structured lim, "STRUCTURED_XML")) ∧
    (Src.extract_codes_structured lim = [] →
      Src.extract_codes_from_text lim.descDe lim.descFr lim.descIt ≠ [] →
      BDB.process_limitation_codes lim bag =
        (Src.extract_codes_from_text lim.descDe lim.descFr lim.descIt,
          "TEXT_PARSED")) ∧
    (Src.extract_codes_structured lim = [] →
      Src.extract_codes_from_text lim.descDe lim.descFr lim.descIt = [] →
      (BDB.process_limitation_codes lim bag =
          ([(bag.getD "") ++ ".XX"], "FALLBACK_XX") ↔
        lim.limitationType = some "DIA" ∧ Src.truthy bag = true)) ∧
    ((BDB.process_limitation_codes lim bag).1 = [] ↔
      Src.extract_codes_structured lim = [] ∧
      Src.extract_codes_from_text lim.descDe lim.descFr lim.descIt = [] ∧
      ¬ (lim.limitationType = some "DIA" ∧ Src.truthy bag = true)) ∧
    (Src.extract_codes_structured lim = [] →
      Src.extract_codes_from_text lim.descDe lim.descFr lim.descIt = [] →
      lim.limitationType = some "DIA" → Src.truthy bag = true →
      EL.process_limitation_codes lim bag =
        ([(bag.getD "") ++ ".xx"], "FALLBACK_XX") ∧
      EL.link_codes [(bag.getD "") ++ ".xx"] "FALLBACK_XX" bag =
        [(bag.getD "") ++ ".XX"]) := by
  refine ⟨?_, ?_, ?_, ?_, ?_⟩
  · intro h
    have h1 : (Src.extract_codes_structured lim).isEmpty = false :=
      List.isEmpty_eq_false.mpr h
    unfold BDB.process_limitation_codes
    simp [h1, h]
  · intro h ht
    have h1 : (Src.extract_codes_structured lim).isEmpty = true :=
      List.isEmpty_eq_true.mpr h
    unfold BDB.process_limitation_codes
    simp [h1, ht]
  · intro h ht
    have h1 : (Src.extract_codes_structured lim).isEmpty = true :=
      List.isEmpty_eq_true.mpr h
    unfold BDB.process_limitation_codes
    by_cases hc : lim.limitationType = some "DIA" ∧ Src.truthy bag = true
    · simp [h1, ht, hc]
    · simp only [h1, if_true, ht]
      constructor
      · intro hcontra
        rw [if_neg (by simpa using hc)] at hcontra
        exact absurd (congrArg (fun p => p.1.length) hcontra) (by simp)
      · intro hcc
        exact absurd hcc hc
  · unfold BDB.process_limitation_codes
    by_cases h : (Src.extract_codes_structured lim).isEmpty = true
    · by_cases ht :
        Src.extract_codes_from_text lim.descDe lim.descFr lim.descIt = []
      · by_cases hc : lim.limitationType = some "DIA" ∧ Src.truthy bag = true
        · simp [h, ht, hc, List.isEmpty_eq_true.mp h]
        · simp [h, ht, hc, List.isEmpty_eq_true.mp h]
      · simp [h, ht, List.isEmpty_eq_true.mp h,
          List.isEmpty_eq_false.mpr ht]
    · have hne := List.isEmpty_eq_false.mp (by simpa using h)
      simp [h, hne, List.isEmpty_eq_false.mpr hne]
  · intro h ht hd hb
    have h1 : (Src.extract_codes_structured lim).isEmpty = true :=
      List.isEmpty_eq_true.mpr h
    unfold EL.process_limitation_codes EL.link_codes
    simp [h1, ht, hd, hb]

/-- Concrete instance of C3: a DIA limitation without structured or
text-parsed codes and dossier 12345 yields exactly the sentinel
12345.XX. -/
theorem claim_C3_witness :
    BDB.process_limitation_codes
      { limitationCode := none, limitationType := some "DIA",
        limitationNiveau := none, descDe := none, descFr := none,
        descIt := none, indicationsCodes := [], pmIndications := [] }
      (some "12345") = (["12345.XX"], "FALLBACK_XX") :=
  ((claim_C3
    { limitationCode := none, limitationType := some "DIA",
      limitationNiveau := none, descDe := none, descFr := none,
      descIt := none, indicationsCodes := [], pmIndications := [] }
    (some "12345")).2.2.1 (by decide) (by decide)).mpr (by decide)

namespace EL

/-- Every guarded pass leaves an already matched segment untouched. -/
theorem overUnmatched_preserve (f : Segment → String → Segment)
    (st : List Segment) (k : Nat) (c : String)
    (h : matchedAt st k = some c) :
    matchedAt (overUnmatched f st) k = some c := by
  unfold matchedAt at h ⊢
  unfold overUnmatched
  rw [List.getElem?_map]
  cases hk : st[k]? with
  | none => rw [hk] at h; simp at h
  | some s =>
    rw [hk] at h
    have hs : s.matched_code_value = some c := by simpa using h
    simp only [Option.map_some']
    rw [if_pos (by simp [hs])]
    simpa using hs

/-- Every pass of the pipeline preserves existing matches. -/
theorem pipeline_preserve (refs : RefData) (f : List Segment → List Segment)
    (hf : f ∈ pipeline refs) (st : List Segment) (k : Nat) (c : String)
    (h : matchedAt st k = some c) : matchedAt (f st) k = some c := by
  unfold pipeline at hf
  rcases hf with _ | ⟨_, _ | ⟨_, _ | ⟨_, _ | ⟨_, _ | ⟨_, _ | ⟨_, _ | ⟨_, _ | ⟨_, h0⟩⟩⟩⟩⟩⟩⟩⟩
  · exact overUnmatched_preserve _ st k c h
  · exact overUnmatched_preserve _ st k c h
  · exact overUnmatched_preserve _ st k c h
  · exact overUnmatched_preserve _ st k c h
  · exact overUnmatched_preserve _ st k c h
  · exact overUnmatched_preserve _ st k c h
  · exact overUnmatched_preserve _ st k c h
  · exact overUnmatched_preserve _ st k c h
  · cases h0

/-- Folding any selection of pipeline passes preserves existing
matches. -/
theorem foldl_preserve (refs : RefData)
    (fs : List (List Segment → List Segment))
    (hsub : ∀ f ∈ fs, f ∈ pipeline refs) :
    ∀ (st : List Segment) (k : Nat) (c : String),
    matchedAt st k = some c →
    matchedAt (fs.foldl (fun acc f => f acc) st) k = some c := by
  induction fs with
  | nil => intro st k c h; simpa using h
  | cons f rest ih =>
    intro st k c h
    rw [List.foldl_cons]
    exact ih (fun g hg => hsub g (List.mem_cons_of_mem _ hg)) _ k c
      (pipeline_preserve refs f (hsub f (List.mem_cons_self _ _)) st k c h)

end EL

/-- C2: once the annotate pass or any cascade layer has assigned a
matched code to a segment, every later pass leaves it unchanged (each
pass only processes segments whose matched code is still null); and the
cascade is a pure function of the unresolved-segment set and reference
tables, so two runs on the same input produce identical assignments. -/
theorem claim_C2 (refs : EL.RefData) (st : List EL.Segment) (i j k : Nat)
    (c : String) (hij : i ≤ j)
    (h : EL.matchedAt (EL.applyPrefix refs i st) k = some c) :
    EL.matchedAt (EL.applyPrefix refs j st) k = some c ∧
    EL.run_pipeline refs st = EL.run_pipeline refs st := by
  refine ⟨?_, rfl⟩
  unfold EL.applyPrefix at h ⊢
  have hsplit : (EL.pipeline refs).take j =
      (EL.pipeline refs).take i ++ (((EL.pipeline refs).take j).drop i) := by
    conv_lhs => rw [← List.take_append_drop i ((EL.pipeline refs).take j)]
    rw [List.take_take, min_eq_left hij]
  rw [hsplit, List.foldl_append]
  exact EL.foldl_preserve refs _
    (fun f hf => List.mem_of_mem_take (List.mem_of_mem_drop hf)) _ k c h

/-- Concrete instance of C2: a segment matched by the embedded-code
layer keeps that code through the full pipeline. -/
theorem claim_C2_witness :
    EL.matchedAt (EL.applyPrefix { name_code_map := [], codes := [] } 8
      [{ segment_id := 1, limitation_id := 1,
         indication_name_de := some "Indikation 12345.01 Erwachsene",
         bag_dossier_no := some "12345", segment_order := 0,
         matched_code_value := none, matched_code_source := none }]) 0 =
      some "12345.01" ∧
    EL.run_pipeline { name_code_map := [], codes := [] }
      [{ segment_id := 1, limitation_id := 1,
         indication_name_de := some "Indikation 12345.01 Erwachsene",
         bag_dossier_no := some "12345", segment_order := 0,
         matched_code_value := none, matched_code_source := none }] =
    EL.run_pipeline { name_code_map := [], codes := [] }
      [{ segment_id := 1, limitation_id := 1,
         indication_name_de := some "Indikation 12345.01 Erwachsene",
         bag_dossier_no := some "12345", segment_order := 0,
         matched_code_value := none, matched_code_source := none }] :=
  claim_C2 { name_code_map := [], codes := [] }
    [{ segment_id := 1, limitation_id := 1,
       indication_name_de := some "Indikation 12345.01 Erwachsene",
       bag_dossier_no := some "12345", segment_order := 0,
       matched_code_value := none, matched_code_source := none }]
    2 8 0 "12345.01" (by decide) (by decide)

/-- C6 counterexample: in build_code_name_mapping (layer 5b of
build_sku_indication_db.py) the two candidates for the normalized name
share no dossier with the segment and disagree on the indication part
(01 versus 02), yet a cross-dossier code is synthesized from the first
candidate — the claim asserts no assignment is made in this case. -/
theorem claim_C6_cex :
    BDB.code_name_layer5
      [{ indication_code := "22222.01",
         indication_name_de := some "Morbus Gaucher",
         bag_dossier_no := some "22222" },
       { indication_code := "33333.02",
         indication_name_de := some "Morbus Gaucher",
         bag_dossier_no := some "33333" }]
      "Morbus Gaucher" "11111.xx" = some ("11111.01", "NORM_CROSS") ∧
    (BDB.norm_lookup
      [{ indication_code := "22222.01",
         indication_name_de := some "Morbus Gaucher",
         bag_dossier_no := some "22222" },
       { indication_code := "33333.02",
         indication_name_de := some "Morbus Gaucher",
         bag_dossier_no := some "33333" }]
      (BDB.normalize_indication_name (some "Morbus Gaucher"))).map Prod.fst =
      ["22222.01", "33333.02"] ∧
    EL.ind_part "22222.01" ≠ EL.ind_part "33333.02" ∧
    (∀ e ∈ BDB.norm_lookup
      [{ indication_code := "22222.01",
         indication_name_de := some "Morbus Gaucher",
         bag_dossier_no := some "22222" },
       { indication_code := "33333.02",
         indication_name_de := some "Morbus Gaucher",
         bag_dossier_no := some "33333" }]
      (BDB.normalize_indication_name (some "Morbus Gaucher")),
      e.2 ≠ BDB.seg_dossier "11111.xx") := by
  refine ⟨by decide, by decide, by decide, by decide⟩

/-- C6 amended: in the segment-matching cascade of extract_limitations.py
(layer 2 of similarity_segment_mapping) the stated property holds: with
no same-dossier candidate, a cross-dossier code is synthesized only when
every candidate shares one indication-part suffix and then has the form
own-dossier.suffix; when candidates disagree on the suffix the layer
makes no assignment. The map-builder layer 5b of
build_sku_indication_db.py instead uses the first candidate
(see the counterexample). -/
theorem claim_C6 (refs : EL.RefData) (s : EL.Segment) (name : String)
    (hm : s.matched_code_value = none)
    (hno : ∀ e ∈ EL.map_by_norm_name refs (EL.segKeyNorm name),
      e.2 ≠ s.bag_dossier_no) :
    ((∃ e1 ∈ EL.map_by_norm_name refs (EL.segKeyNorm name),
      ∃ e2 ∈ EL.map_by_norm_name refs (EL.segKeyNorm name),
        EL.ind_part e1.1 ≠ EL.ind_part e2.1) →
      EL.layer2Seg refs s name = s) ∧
    (∀ code, (EL.layer2Seg refs s name).matched_code_value = some code →
      ∃ b p, s.bag_dossier_no = some b ∧ b ≠ "" ∧ code = b ++ "." ++ p ∧
        (EL.layer2Seg refs s name).matched_code_source =
          some "NORMALIZED_CROSS" ∧
        ∀ e ∈ EL.map_by_norm_name refs (EL.segKeyNorm name),
          EL.ind_part e.1 = p) := by
  have hfind : (EL.map_by_norm_name refs (EL.segKeyNorm name)).find?
      (fun e => e.2 = s.bag_dossier_no) = none :=
    List.find?_eq_none.mpr (fun e he => by simpa using hno e he)
  constructor
  · rintro ⟨e1, he1, e2, he2, hne⟩
    unfold EL.layer2Seg
    dsimp only []
    rw [hfind]
    cases hc : EL.map_by_norm_name refs (EL.segKeyNorm name) with
    | nil => simp [hc] at he1
    | cons e0 rest =>
      rw [hc] at he1 he2
      have hnotall : ¬ (rest.all
          (fun e => EL.ind_part e.1 = EL.ind_part e0.1) = true) := by
        intro hall
        have hp : ∀ e ∈ e0 :: rest, EL.ind_part e.1 = EL.ind_part e0.1 := by
          intro e he
          rcases List.mem_cons.mp he with rfl | he
          · rfl
          · simpa using List.all_eq_true.mp hall e he
        exact hne ((hp e1 he1).trans (hp e2 he2).symm)
      simp only []
      rw [if_neg hnotall]
  · intro code hcode
    unfold EL.layer2Seg at hcode
    dsimp only [] at hcode
    rw [hfind] at hcode
    cases hc : EL.map_by_norm_name refs (EL.segKeyNorm name) with
    | nil =>
      rw [hc] at hcode
      simp only [] at hcode
      rw [hm] at hcode
      cases hcode
    | cons e0 rest =>
      rw [hc] at hcode
      simp only [] at hcode
      by_cases hall : rest.all
          (fun e => EL.ind_part e.1 = EL.ind_part e0.1) = true
      · rw [if_pos hall] at hcode
        cases hb : s.bag_dossier_no with
        | none =>
          rw [hb] at hcode
          simp only [] at hcode
          rw [hm] at hcode
          cases hcode
        | some b =>
          rw [hb] at hcode
          simp only [] at hcode
          by_cases hbe : b = ""
          · rw [if_neg (by simp [hbe])] at hcode
            rw [hm] at hcode
            cases hcode
          · rw [if_pos hbe] at hcode
            refine ⟨b, EL.ind_part e0.1, rfl, hbe, ?_, ?_, ?_⟩
            · have : some (b ++ "." ++ EL.ind_part e0.1) = some code := hcode
              exact (Option.some.injEq _ _).mp this |>.symm
            · unfold EL.layer2Seg
              dsimp only []
              rw [hfind, hc]
              simp only []
              rw [if_pos hall, hb]
              simp only []
              rw [if_pos hbe]
              rfl
            · intro e he
              rcases List.mem_cons.mp he with rfl | he
              · rfl
              · simpa using List.all_eq_true.mp hall e he
      · rw [if_neg hall] at hcode
        rw [hm] at hcode
        cases hcode

/-- Concrete instance of C6: with candidates 22222.01 and 33333.02
disagreeing on the indication part and no same-dossier entry, the
cascade layer leaves the segment unchanged. -/
theorem claim_C6_witness :
    EL.layer2Seg
      { name_code_map :=
        [{ indication_name_de := "Morbus Gaucher", code_value := "22222.01",
           bag_dossier_no := some "22222" },
         { indication_name_de := "Morbus Gaucher", code_value := "33333.02",
           bag_dossier_no := some "33333" }], codes := [] }
      { segment_id := 1, limitation_id := 1,
        indication_name_de := some "Morbus Gaucher",
        bag_dossier_no := some "11111", segment_order := 0,
        matched_code_value := none, matched_code_source := none }
      "Morbus Gaucher" =
      { segment_id := 1, limitation_id := 1,
        indication_name_de := some "Morbus Gaucher",
        bag_dossier_no := some "11111", segment_order := 0,
        matched_code_value := none, matched_code_source := none } :=
  (claim_C6
    { name_code_map :=
      [{ indication_name_de := "Morbus Gaucher", code_value := "22222.01",
         bag_dossier_no := some "22222" },
       { indication_name_de := "Morbus Gaucher", code_value := "33333.02",
         bag_dossier_no := some "33333" }], codes := [] }
    { segment_id := 1, limitation_id := 1,
      indication_name_de := some "Morbus Gaucher",
      bag_dossier_no := some "11111", segment_order := 0,
      matched_code_value := none, matched_code_source := none }
    "Morbus Gaucher" rfl (by decide)).1 (by decide)

/-- C7 counterexample: on the exact scenario body of the claim the
segmenter yields a single segment, not two — the second bold span sits
mid-paragraph (after a period and a space, not after a line break), so
RE_HEADER_BOLD does not treat it as a header and it stays inside the
body of the first segment. -/
theorem claim_C7_cex :
    (Src.split_limitation_texts
      (some "<b>Psoriasis</b> adults. <b>Arthritis</b> children.")
      none none).length = 1 ∧
    ¬ (Src.split_limitation_texts
        (some "<b>Psoriasis</b> adults. <b>Arthritis</b> children.")
        none none).length = 2 ∧
    (Src.split_limitation_texts
      (some "<b>Psoriasis</b> adults. <b>Arthritis</b> children.")
      none none).map (fun s => (s.name_de, s.text_de)) =
      [(some "Psoriasis", some "adults. <b>Arthritis</b> children.")] := by
  refine ⟨by decide, by decide, by decide⟩

/-- C7 amended: the ordinal layer pairs the suffix-sorted codes with the
order-sorted segments index for index whenever the code count exceeds
one, matches the segment count and all dotted codes share one dossier;
and on the scenario body with a paragraph break before the second header
(two br tags), the segmenter yields the two segments Psoriasis and
Arthritis and the ordinal layer assigns 12345.01 to segment 0 and
12345.02 to segment 1. -/
theorem claim_C7 :
    (∀ (codes : List String) (segs : List BDB.SegNames),
      1 < codes.length → segs.length = codes.length →
      (Src.dedup ((codes.filter (fun c => c.data.contains '.')).map
        (fun c => ((Src.splitOnChar '.' c.data).headD []).asString))).length =
        1 →
      BDB.ordinal_position_pairs codes segs =
        (Src.sortStable (fun a b =>
          Src.lexLt (BDB.suffix_key a).data (BDB.suffix_key b).data)
          codes).zip
        (Src.sortStable (fun a b => a.segment_order < b.segment_order)
          segs)) ∧
    (BDB.segment_texts_rows
      (some "<b>Psoriasis</b> adults.<br><br><b>Arthritis</b> children.")
      none none).map (fun s => (s.order, s.name_de)) =
      [(0, some "Psoriasis"), (1, some "Arthritis")] ∧
    (BDB.ordinal_position_pairs ["12345.01", "12345.02"]
      [{ segment_id := 1, segment_order := 0, name_de := some "Psoriasis",
         name_fr := none, name_it := none },
       { segment_id := 2, segment_order := 1, name_de := some "Arthritis",
         name_fr := none, name_it := none }]).map
      (fun p => (p.1, p.2.segment_order)) =
      [("12345.01", 0), ("12345.02", 1)] := by
  refine ⟨?_, by decide, by decide⟩
  intro codes segs h1 h2 h3
  unfold BDB.ordinal_position_pairs
  rw [if_neg (by omega)]
  rw [if_neg (by simp [h2])]
  dsimp only []
  rw [if_neg (by simp only [ne_eq, Decidable.not_not]; simpa using h3)]

/-- Concrete instance of C7: two codes of one dossier in reverse order
are sorted by suffix and paired with the order-sorted segments. -/
theorem claim_C7_witness :
    BDB.ordinal_position_pairs ["12345.02", "12345.01"]
      [{ segment_id := 2, segment_order := 1, name_de := some "Arthritis",
         name_fr := none, name_it := none },
       { segment_id := 1, segment_order := 0, name_de := some "Psoriasis",
         name_fr := none, name_it := none }] =
      (Src.sortStable (fun a b =>
        Src.lexLt (BDB.suffix_key a).data (BDB.suffix_key b).data)
        ["12345.02", "12345.01"]).zip
      (Src.sortStable (fun a b => a.segment_order < b.segment_order)
        [{ segment_id := 2, segment_order := 1, name_de := some "Arthritis",
           name_fr := none, name_it := none },
         { segment_id := 1, segment_order := 0, name_de := some "Psoriasis",
           name_fr := none, name_it := none }]) :=
  claim_C7.1 ["12345.02", "12345.01"]
    [{ segment_id := 2, segment_order := 1, name_de := some "Arthritis",
       name_fr := none, name_it := none },
     { segment_id := 1, segment_order := 0, name_de := some "Psoriasis",
       name_fr := none, name_it := none }]
    (by decide) (by decide) (by decide)

/-- C8 counterexample: a text with one French header segment and no
German header is dropped entirely by build_indication_segments of
extract_limitations.py — its null German name counts as structural — so
no segment at all is produced, where the claim requires one segment with
nulls in the missing language. -/
theorem claim_C8_cex :
    EL.build_indication_segments_rows (some "Einleitung ohne Markierung.")
      (some "<b>Psoriasis</b> corps.") none = [] ∧
    (Src.split_text_by_indication (some "<b>Psoriasis</b> corps.")).length =
      1 ∧
    (Src.split_limitation_texts (some "Einleitung ohne Markierung.")
      (some "<b>Psoriasis</b> corps.") none).length = 1 := by
  refine ⟨by decide, by decide, by decide⟩

/-- C8 amended: positional alignment itself accepts a language with zero
headers as-is — every aligned position carries null name and null body in
that language and no position is lost — and the segment filter of
build_sku_indication_db.py (segment_texts) keeps every aligned segment
whose surviving names are non-structural, falling back to French or
Italian names, so there a segment is never dropped on account of a
missing language; build_indication_segments of extract_limitations.py
instead drops segments whose German name is null (see the
counterexample). -/
theorem claim_C8 (desc_de desc_fr desc_it : Option String)
    (h0 : Src.split_text_by_indication desc_de = []) :
    (∀ s ∈ Src.split_limitation_texts desc_de desc_fr desc_it,
      s.name_de = none ∧ s.text_de = none) ∧
    (Src.split_limitation_texts desc_de desc_fr desc_it).length =
      max (Src.split_text_by_indication desc_fr).length
        (Src.split_text_by_indication desc_it).length ∧
    (Src.split_text_by_indication desc_fr ≠ [] →
      0 < (Src.split_limitation_texts desc_de desc_fr desc_it).length) ∧
    (∀ s ∈ Src.split_limitation_texts desc_de desc_fr desc_it,
      ¬ Src.is_structural_name (Src.orPy s.name_fr s.name_it) = true →
      s ∈ BDB.segment_texts_rows desc_de desc_fr desc_it) := by
  have hmem : ∀ s ∈ Src.split_limitation_texts desc_de desc_fr desc_it,
      s.name_de = none ∧ s.text_de = none := by
    intro s hs
    simp only [Src.split_limitation_texts, h0] at hs
    rw [List.mem_map] at hs
    obtain ⟨i, _, rfl⟩ := hs
    constructor <;> simp
  have hlen : (Src.split_limitation_texts desc_de desc_fr desc_it).length =
      max (Src.split_text_by_indication desc_fr).length
        (Src.split_text_by_indication desc_it).length := by
    simp [Src.split_limitation_texts, h0]
  refine ⟨hmem, hlen, ?_, ?_⟩
  · intro hfr
    rw [hlen]
    exact Nat.lt_of_lt_of_le (List.length_pos.mpr hfr) (le_max_left _ _)
  · intro s hs hkeep
    unfold BDB.segment_texts_rows
    rw [List.mem_filter]
    refine ⟨hs, ?_⟩
    have hnd := (hmem s hs).1
    have horpy : Src.orPy none (Src.orPy s.name_fr s.name_it) =
        Src.orPy s.name_fr s.name_it := rfl
    rw [hnd, horpy]
    simpa using hkeep

/-- Concrete instance of C8: German body without headers, French body
with one header — the alignment still yields one segment. -/
theorem claim_C8_witness :
    0 < (Src.split_limitation_texts (some "Einleitung ohne Markierung.")
      (some "<b>Psoriasis</b> corps.") none).length :=
  (claim_C8 (some "Einleitung ohne Markierung.")
    (some "<b>Psoriasis</b> corps.") none (by decide)).2.2.1 (by decide)

namespace EL

/-- Pointwise effect of upsert_pack on a GTIN hit: the row matching the
found pack overwrites its descriptive fields including the dossier and
advances last_seen_extract, while preparation_id, gtin and
first_seen_extract stay; other rows are unchanged. -/
theorem upsert_pack_getElem (store : List PackRow) (e prep : Nat)
    (g sm8 bag dde dfr dit : Option String) (pp ep : Option ℚ) (v : PackRow)
    (hg : Src.truthy g = true)
    (hf : store.find? (fun r => r.gtin = g.getD "") = some v)
    (k : Nat) (r : PackRow) (h : store[k]? = some r) :
    (upsert_pack store e prep g sm8 bag dde dfr dit pp ep).1[k]? = some
      (if r.pack_id_db = v.pack_id_db then
        { r with last_seen_extract := e, bag_dossier_no := bag,
                 swissmedic_no8 := sm8, description_de := dde,
                 description_fr := dfr, description_it := dit,
                 public_price := pp, exfactory_price := ep }
      else r) := by
  unfold upsert_pack
  rw [if_neg (by simp [hg])]
  dsimp only []
  rw [hf]
  simp only [List.getElem?_map, h, Option.map_some']

end EL

/-- C9 counterexample: re-observing GTIN 7680001 with a different owning
preparation and dossier leaves the stored sku row with its original
preparation and dossier (only last_seen and prices refresh); the claim
says the newer snapshot values win. In the pack table of
extract_limitations.py the dossier does win but the owning preparation
also keeps its first value. -/
theorem claim_C9_cex :
    BDB.upsert_sku
      (BDB.upsert_sku [] 1 "7680001" none "11111" (some "D1") 1 none none
        none none none none)
      2 "7680001" none "22222" (some "D2") 2 none none none none none none =
      [{ gtin := "7680001", swissmedic_no8 := none, swissmedic_no5 := "11111",
         bag_dossier_no := some "D1", preparation_id := 1,
         product_name := none, atc_code := none, org_gen_code := none,
         description_de := none, public_price := none,
         exfactory_price := none, first_seen_extract := 1,
         last_seen_extract := 2 }] ∧
    ((1 : Nat) ≠ 2 ∧ (some "D1" : Option String) ≠ some "D2") ∧
    (EL.upsert_pack
      (EL.upsert_pack [] 1 1 (some "7680001") none (some "D1") none none
        none none none).1
      2 2 (some "7680001") none (some "D2") none none none none none).1 =
      [{ pack_id_db := 1, preparation_id := 1, gtin := "7680001",
         swissmedic_no8 := none, bag_dossier_no := some "D2",
         description_de := none, description_fr := none,
         description_it := none, public_price := none,
         exfactory_price := none, first_seen_extract := 1,
         last_seen_extract := 2 }] := by
  refine ⟨by decide, ⟨by decide, by decide⟩, by decide⟩

/-- C9 amended: a re-observed key with a conflicting payload is never
rejected (the row count is preserved); in upsert_sku the stored identity
fields — owning preparation, dossier, swissmedic number — keep their
first-seen values and only last_seen and the prices refresh, while in
upsert_pack the newer snapshot wins for the descriptive fields
including the dossier but the owning preparation likewise keeps its
first-seen value. -/
theorem claim_C9 :
    (∀ (store : List BDB.SkuRow) (o : BDB.SkuObs) (k : Nat) (r : BDB.SkuRow),
      store[k]? = some r →
      ∃ r2, (BDB.applySkuObs store o)[k]? = some r2 ∧
        r2.preparation_id = r.preparation_id ∧
        r2.bag_dossier_no = r.bag_dossier_no ∧
        r2.swissmedic_no5 = r.swissmedic_no5 ∧
        r2.first_seen_extract = r.first_seen_extract ∧
        (r.gtin = o.gtin → r2.last_seen_extract = o.extract_id)) ∧
    (∀ (store : List BDB.SkuRow) (o : BDB.SkuObs),
      (store.find? (fun r => r.gtin = o.gtin)).isSome = true →
      (BDB.applySkuObs store o).length = store.length) ∧
    (∀ (store : List EL.PackRow) (e prep : Nat)
      (g sm8 bag dde dfr dit : Option String) (pp ep : Option ℚ)
      (v : EL.PackRow), Src.truthy g = true →
      store.find? (fun r => r.gtin = g.getD "") = some v →
      ∀ (k : Nat) (r : EL.PackRow), store[k]? = some r →
      ∃ r2, (EL.upsert_pack store e prep g sm8 bag dde dfr dit pp ep).1[k]? =
          some r2 ∧
        r2.preparation_id = r.preparation_id ∧
        r2.gtin = r.gtin ∧
        r2.first_seen_extract = r.first_seen_extract ∧
        (r.pack_id_db = v.pack_id_db →
          r2.bag_dossier_no = bag ∧ r2.last_seen_extract = e)) ∧
    (∀ (store : List EL.PackRow) (e prep : Nat)
      (g sm8 bag dde dfr dit : Option String) (pp ep : Option ℚ)
      (v : EL.PackRow), Src.truthy g = true →
      store.find? (fun r => r.gtin = g.getD "") = some v →
      (EL.upsert_pack store e prep g sm8 bag dde dfr dit pp ep).1.length =
        store.length) := by
  refine ⟨?_, ?_, ?_, ?_⟩
  · intro store o k r h
    refine ⟨_, BDB.applySkuObs_getElem store o k r h, ?_⟩
    by_cases hg : r.gtin = o.gtin
    · rw [if_pos hg]
      exact ⟨rfl, rfl, rfl, rfl, fun _ => rfl⟩
    · rw [if_neg hg]
      exact ⟨rfl, rfl, rfl, rfl, fun hc => absurd hc hg⟩
  · intro store o hf
    unfold BDB.applySkuObs BDB.upsert_sku
    rw [if_pos hf, List.length_map]
  · intro store e prep g sm8 bag dde dfr dit pp ep v hg hf k r h
    refine ⟨_,
      EL.upsert_pack_getElem store e prep g sm8 bag dde dfr dit pp ep v hg
        hf k r h, ?_⟩
    by_cases hid : r.pack_id_db = v.pack_id_db
    · rw [if_pos hid]
      exact ⟨rfl, rfl, rfl, fun _ => ⟨rfl, rfl⟩⟩
    · rw [if_neg hid]
      exact ⟨rfl, rfl, rfl, fun hc => absurd hc hid⟩
  · intro store e prep g sm8 bag dde dfr dit pp ep v hg hf
    unfold EL.upsert_pack
    rw [if_neg (by simp [hg])]
    dsimp only []
    rw [hf]
    simp

/-- Concrete instance of C9: a conflicting re-observation is applied in
place — the table keeps its single row. -/
theorem claim_C9_witness :
    (BDB.applySkuObs
      [{ gtin := "7680001", swissmedic_no8 := none, swissmedic_no5 := "11111",
         bag_dossier_no := some "D1", preparation_id := 1,
         product_name := none, atc_code := none, org_gen_code := none,
         description_de := none, public_price := none,
         exfactory_price := none, first_seen_extract := 1,
         last_seen_extract := 1 }]
      { extract_id := 2, gtin := "7680001", swissmedic_no8 := none,
        swissmedic_no5 := "22222", bag_dossier_no := some "D2",
        preparation_id := 2, product_name := none, atc_code := none,
        org_gen_code := none, description_de := none, public_price := none,
        exfactory_price := none }).length =
      ([{ gtin := "7680001", swissmedic_no8 := none,
          swissmedic_no5 := "11111", bag_dossier_no := some "D1",
          preparation_id := 1, product_name := none, atc_code := none,
          org_gen_code := none, description_de := none, public_price := none,
          exfactory_price := none, first_seen_extract := 1,
          last_seen_extract := 1 }] : List BDB.SkuRow).length :=
  claim_C9.2.1
    [{ gtin := "7680001", swissmedic_no8 := none, swissmedic_no5 := "11111",
       bag_dossier_no := some "D1", preparation_id := 1,
       product_name := none, atc_code := none, org_gen_code := none,
       description_de := none, public_price := none, exfactory_price := none,
       first_seen_extract := 1, last_seen_extract := 1 }]
    { extract_id := 2, gtin := "7680001", swissmedic_no8 := none,
      swissmedic_no5 := "22222", bag_dossier_no := some "D2",
      preparation_id := 2, product_name := none, atc_code := none,
      org_gen_code := none, description_de := none, public_price := none,
      exfactory_price := none }
    (by decide)

/-
Sanity checks: evaluations of the embedded interpreters on known inputs,
matching the behavior of the Python originals (re, difflib ratio, the
RFC 1321 MD5 test vectors, and the segmenter).
-/

theorem sanity_regex_leftmost :
    (Py.reSearch (Py.strR "ab".data) "xxab".data).map Py.RMatch.mstart =
      some 2 := by decide

theorem sanity_regex_lazy_group :
    (Py.reSearch (.seq (Py.strR "a".data) (.group 1 (Py.plusL Py.dotR)))
      "abc".data).bind (fun m => Py.groupStr "abc".data m 1) =
      some "b".data := by decide

theorem sanity_split_midline_bold_is_not_a_header :
    Src.split_text_by_indication
        (some "<b>Psoriasis</b> adults. <b>Arthritis</b> children.") =
      [("Psoriasis", "adults. <b>Arthritis</b> children.")] := by decide

theorem sanity_split_after_br :
    Src.split_text_by_indication
        (some "<b>Psoriasis</b> adults.<br><br><b>Arthritis</b> children.") =
      [("Psoriasis", "adults."), ("Arthritis", "children.")] := by decide

theorem sanity_structural_und : Src.is_structural_name (some "UND") = true := by
  decide

theorem sanity_structural_indication :
    Src.is_structural_name (some "Psoriasis") = false := by decide

theorem sanity_text_pattern_de :
    Src.extract_codes_from_text
      (some "Indikationscode an den Versicherer: 12345.01.") none none =
      ["12345.01"] := by decide

set_option maxRecDepth 40000 in
theorem sanity_md5_empty :
    MD5.md5Hex (MD5.strBytes "") = "d41d8cd98f00b204e9800998ecf8427e" := by
  decide

set_option maxRecDepth 40000 in
theorem sanity_md5_abc :
    MD5.md5Hex (MD5.strBytes "abc") = "900150983cd24fb0d6963f7d28e17f72" := by
  decide

theorem sanity_difflib_quarter :
    Difflib.sm_similarity "abcd".data "bcde".data = (6, 8) := by decide

theorem sanity_difflib_equal :
    Difflib.sm_similarity "abc".data "abc".data = (6, 6) := by decide

theorem sanity_difflib_disjoint :
    Difflib.sm_similarity "abc".data "xyz".data = (0, 6) := by decide
